import Mathlib

/-!
# Channel upgrade handshake, Init step (ibc-go, `modules/core/04-channel/keeper/upgrade.go`)

A shallow embedding of `Keeper.ChanUpgradeInit` and `Keeper.WriteUpgradeInitChannel`
together with the stores they read and write, followed by the properties proved
about them.

Conventions of the embedding:

* Go `uint64` values are natural numbers; the one arithmetic operation of the
  source, `seq + 1`, is taken modulo `2 ^ 64`.
* A Go slice is either the nil slice or a non-nil slice with its elements, because
  `reflect.DeepEqual` tells the two apart.
* The `sdk.Context` is an explicit value `Ctx` that every operation receives and
  returns.
* A call either returns its Go result tuple or panics (`Outcome`).
-/

namespace IbcGo

/-! ## Data model -/

/-- Width of Go's `uint64`. -/
def uint64Size : Nat := 2 ^ 64

/-- A Go slice value: the nil slice, or a non-nil slice holding `xs` (possibly empty). -/
inductive GoSlice (α : Type) where
  | nil : GoSlice α
  | elems (xs : List α) : GoSlice α
  deriving DecidableEq, Repr

/-- The elements of a slice; the nil slice has none. -/
def GoSlice.toList {α : Type} : GoSlice α → List α
  | .nil => []
  | .elems xs => xs

/-- Go's `s[i]`: `none` stands for the run-time panic "index out of range". -/
def GoSlice.index {α : Type} (s : GoSlice α) (i : Nat) : Option α :=
  s.toList.get? i

/-- Modelled from the spec: the declaration of `types.State` is not part of the source
files at hand; §3 lists its values. -/
inductive State where
  | UNINITIALIZED | INIT | TRYOPEN | OPEN | CLOSED | INITUPGRADE | TRYUPGRADE
  deriving DecidableEq, Repr

/-- Modelled from the spec: the declaration of `types.Order` is not part of the source
files at hand; §3 names the two capability levels. -/
inductive Order where
  | UNORDERED | ORDERED
  deriving DecidableEq, Repr

/-- Modelled from the spec: `Order.SubsetOf` is not part of the source files at hand.
§3: orderings are ordered such that UNORDERED ⊂ ORDERED, and "ordering A is a subset
of ordering B" means every guarantee A provides, B also provides. -/
def Order.SubsetOf (o order : Order) : Bool :=
  match o, order with
  | .UNORDERED, _ => true
  | .ORDERED, .ORDERED => true
  | .ORDERED, .UNORDERED => false

/-- The remote end of a channel (`types.Counterparty`). -/
structure Counterparty where
  PortId : String
  ChannelId : String
  deriving DecidableEq, Repr

/-- A channel end (`types.Channel`), with the five attributes of §3. -/
structure Channel where
  State : State
  Ordering : Order
  Counterparty : Counterparty
  ConnectionHops : GoSlice String
  Version : String
  deriving DecidableEq, Repr

/-- A counterparty height (`clienttypes.Height`), two `uint64` fields. -/
structure Height where
  RevisionNumber : Nat
  RevisionHeight : Nat
  deriving DecidableEq, Repr

/-- The timeout of an upgrade attempt (`types.UpgradeTimeout`). -/
structure UpgradeTimeout where
  TimeoutHeight : Height
  TimeoutTimestamp : Nat
  deriving DecidableEq, Repr

/-- A capability handle `*capabilitytypes.Capability`: the nil pointer or a capability
identified by its index. -/
abbrev Capability := Option Nat

/-- The registered errors that `ChanUpgradeInit` wraps. The wrapping only adds a
message for display; the registered error is what a caller tests for. -/
inductive Error where
  | ErrChannelNotFound
  | ErrInvalidChannelState
  | ErrChannelCapabilityNotFound
  | ErrChannelExists
  | ErrConnectionNotFound
  | ErrInvalidCounterparty
  | ErrInvalidChannelOrdering
  deriving DecidableEq, Repr

/-- Modelled from the spec: `emitChannelUpgradeInitEvent` is not part of the source
files at hand; §4.1: the event carries the port, channel, sequence and new channel
record. -/
structure Event where
  portID : String
  channelID : String
  upgradeSequence : Nat
  channelUpgrade : Channel
  deriving DecidableEq, Repr

/-- How a Go call ends: it returns a value, or it panics. -/
inductive Outcome (α : Type) where
  | returns (v : α) : Outcome α
  | panics : Outcome α
  deriving DecidableEq, Repr

/-- Key of the channel-indexed stores: (port identifier, channel identifier). -/
abbrev ChanKey := String × String

/-- The request context: the three record stores of §2 (the Upgrade Attempt Store with
one map per field, §4.2), the answers of the two external collaborators of §6
(`scopedKeeper.AuthenticateCapability`, `connectionKeeper.HasConnection`), the path
function `host.ChannelCapabilityPath` taken as a parameter, the event sink and the
telemetry counter "ibc/channel/upgrade-init". -/
structure Ctx where
  channels : ChanKey → Option Channel
  upgradeRestoreChannels : ChanKey → Option Channel
  upgradeSequences : ChanKey → Option Nat
  upgradeTimeouts : ChanKey → Option UpgradeTimeout
  AuthenticateCapability : Capability → String → Bool
  HasConnection : String → Bool
  ChannelCapabilityPath : String → String → String
  events : List Event
  upgradeInitCounter : Nat

/-! ## Store accessors -/

/-- Writing one key of a store: `Set(key, value)` of §6. -/
def setKey {α : Type} (m : ChanKey → Option α) (key : ChanKey) (v : α) : ChanKey → Option α :=
  fun key' => if key' = key then some v else m key'

/-- Modelled from the spec: `Keeper.GetChannel` is not part of the source files at hand;
§2: the Channel Record Store maps a (port, channel) pair to a Channel record. -/
def GetChannel (ctx : Ctx) (portID channelID : String) : Option Channel :=
  ctx.channels (portID, channelID)

/-- Modelled from the spec: `Keeper.SetChannel` is not part of the source files at hand;
§6: `Set(key, value)` on the Channel Record Store. -/
def SetChannel (ctx : Ctx) (portID channelID : String) (channel : Channel) : Ctx :=
  { ctx with channels := setKey ctx.channels (portID, channelID) channel }

/-- Modelled from the spec: `Keeper.GetUpgradeRestoreChannel` is not part of the source
files at hand; §4.2: independent accessor for the `restoreChannel` field. -/
def GetUpgradeRestoreChannel (ctx : Ctx) (portID channelID : String) : Option Channel :=
  ctx.upgradeRestoreChannels (portID, channelID)

/-- Modelled from the spec: `Keeper.SetUpgradeRestoreChannel` is not part of the source
files at hand; §4.2: independent accessor for the `restoreChannel` field. -/
def SetUpgradeRestoreChannel (ctx : Ctx) (portID channelID : String) (channel : Channel) : Ctx :=
  { ctx with upgradeRestoreChannels := setKey ctx.upgradeRestoreChannels (portID, channelID) channel }

/-- Modelled from the spec: `Keeper.GetUpgradeSequence` is not part of the source files
at hand; §4.2: independent accessor for the `sequence` field. -/
def GetUpgradeSequence (ctx : Ctx) (portID channelID : String) : Option Nat :=
  ctx.upgradeSequences (portID, channelID)

/-- Modelled from the spec: `Keeper.SetUpgradeSequence` is not part of the source files
at hand; §4.2: independent accessor for the `sequence` field. -/
def SetUpgradeSequence (ctx : Ctx) (portID channelID : String) (sequence : Nat) : Ctx :=
  { ctx with upgradeSequences := setKey ctx.upgradeSequences (portID, channelID) sequence }

/-- Modelled from the spec: `Keeper.GetUpgradeTimeout` is not part of the source files
at hand; §4.2: independent accessor for the `timeout` field. -/
def GetUpgradeTimeout (ctx : Ctx) (portID channelID : String) : Option UpgradeTimeout :=
  ctx.upgradeTimeouts (portID, channelID)

/-- Modelled from the spec: `Keeper.SetUpgradeTimeout` is not part of the source files
at hand; §4.2: independent accessor for the `timeout` field. -/
def SetUpgradeTimeout (ctx : Ctx) (portID channelID : String) (upgradeTimeout : UpgradeTimeout) : Ctx :=
  { ctx with upgradeTimeouts := setKey ctx.upgradeTimeouts (portID, channelID) upgradeTimeout }

/-- Modelled from the spec: `emitChannelUpgradeInitEvent` is not part of the source
files at hand; §6: `EmitEvent` is fire-and-forget and appends to the event sink. -/
def emitChannelUpgradeInitEvent (ctx : Ctx) (portID channelID : String) (upgradeSequence : Nat)
    (channelUpgrade : Channel) : Ctx :=
  { ctx with events := ctx.events ++ [⟨portID, channelID, upgradeSequence, channelUpgrade⟩] }

/-! ## The two operations of `upgrade.go` -/

/-- The Go result tuple `(upgradeSequence, previousVersion, err)`; `none` is a nil error. -/
abbrev InitResult := Nat × String × Option Error

/-- `Keeper.ChanUpgradeInit` (upgrade.go, lines 19-77). Returns the context after the
call and how the call ended. -/
def ChanUpgradeInit (ctx : Ctx) (portID channelID : String) (chanCap : Capability)
    (proposedUpgradeChannel : Channel) (counterpartyTimeoutHeight : Height)
    (counterpartyTimeoutTimestamp : Nat) : Ctx × Outcome InitResult :=
  match GetChannel ctx portID channelID with
  | none => (ctx, .returns (0, "", some .ErrChannelNotFound))
  | some channel =>
    if channel.State ≠ .OPEN then
      (ctx, .returns (0, "", some .ErrInvalidChannelState))
    else if !ctx.AuthenticateCapability chanCap (ctx.ChannelCapabilityPath portID channelID) then
      (ctx, .returns (0, "", some .ErrChannelCapabilityNotFound))
    else
      let restoreChannel := channel
      let channel := { channel with State := .INITUPGRADE }
      if channel = proposedUpgradeChannel then
        (ctx, .returns (0, "", some .ErrChannelExists))
      else
        match proposedUpgradeChannel.ConnectionHops.index 0 with
        | none => (ctx, .panics)
        | some hop =>
          if !ctx.HasConnection hop then
            (ctx, .returns (0, "", some .ErrConnectionNotFound))
          else if proposedUpgradeChannel.Counterparty.PortId ≠ channel.Counterparty.PortId ∨
              proposedUpgradeChannel.Counterparty.ChannelId ≠ channel.Counterparty.ChannelId then
            (ctx, .returns (0, "", some .ErrInvalidCounterparty))
          else if !channel.Ordering.SubsetOf proposedUpgradeChannel.Ordering then
            (ctx, .returns (0, "", some .ErrInvalidChannelOrdering))
          else
            let upgradeSequence :=
              match GetUpgradeSequence ctx portID channelID with
              | some seq => (seq + 1) % uint64Size
              | none => 1
            let upgradeTimeout : UpgradeTimeout :=
              { TimeoutHeight := counterpartyTimeoutHeight
                TimeoutTimestamp := counterpartyTimeoutTimestamp }
            let ctx := SetUpgradeRestoreChannel ctx portID channelID restoreChannel
            let ctx := SetUpgradeSequence ctx portID channelID upgradeSequence
            let ctx := SetUpgradeTimeout ctx portID channelID upgradeTimeout
            (ctx, .returns (upgradeSequence, channel.Version, none))

/-- `Keeper.WriteUpgradeInitChannel` (upgrade.go, lines 81-94). The log line it prints
is not state and is left out; the deferred telemetry increment runs last. -/
def WriteUpgradeInitChannel (ctx : Ctx) (portID channelID : String) (upgradeSequence : Nat)
    (channelUpgrade : Channel) : Ctx :=
  let ctx := SetChannel ctx portID channelID channelUpgrade
  let ctx := emitChannelUpgradeInitEvent ctx portID channelID upgradeSequence channelUpgrade
  { ctx with upgradeInitCounter := ctx.upgradeInitCounter + 1 }

/-! ## Concrete contexts used to exercise the operations -/

/-- The empty store. -/
def emptyStore {α : Type} : ChanKey → Option α := fun _ => none

/-- An OPEN, UNORDERED channel end towards ("portB", "chan-7") over "connection-0". -/
def openChannel : Channel :=
  { State := .OPEN, Ordering := .UNORDERED, Counterparty := ⟨"portB", "chan-7"⟩,
    ConnectionHops := .elems ["connection-0"], Version := "v1" }

/-- A context holding `openChannel` at ("portA", "chan-1"), no upgrade attempt, in which
every capability authenticates and exactly "connection-0" is a known connection. -/
def baseCtx : Ctx :=
  { channels := setKey emptyStore ("portA", "chan-1") openChannel
    upgradeRestoreChannels := emptyStore
    upgradeSequences := emptyStore
    upgradeTimeouts := emptyStore
    AuthenticateCapability := fun _ _ => true
    HasConnection := fun c => c = "connection-0"
    ChannelCapabilityPath := fun p c => p ++ "/" ++ c
    events := []
    upgradeInitCounter := 0 }

/-- The proposal that upgrades `openChannel` to ORDERED and carries state INITUPGRADE. -/
def orderedProposal : Channel :=
  { openChannel with State := .INITUPGRADE, Ordering := .ORDERED }

/-- A proposal that names another counterparty port. -/
def foreignProposal : Channel :=
  { orderedProposal with Counterparty := ⟨"portC", "chan-7"⟩ }

/-- As `baseCtx`, after four earlier upgrade attempts on ("portA", "chan-1"). -/
def seqCtx : Ctx :=
  { baseCtx with upgradeSequences := setKey emptyStore ("portA", "chan-1") 4 }

/-- As `baseCtx`, with the largest `uint64` stored as upgrade sequence. -/
def maxSeqCtx : Ctx :=
  { baseCtx with
    upgradeSequences := setKey emptyStore ("portA", "chan-1") 18446744073709551615 }

/-- The proposal equal to `openChannel` except for its state, CLOSED. -/
def closedProposal : Channel :=
  { openChannel with State := .CLOSED }

/-- The proposal equal to `openChannel` except for its state, INITUPGRADE. -/
def noopProposal : Channel :=
  { openChannel with State := .INITUPGRADE }

/-- A proposal that changes the counterparty and routes over an unknown connection. -/
def strayProposal : Channel :=
  { foreignProposal with ConnectionHops := .elems ["connection-9"] }

/-- As `openChannel`, with ordering ORDERED. -/
def orderedChannel : Channel :=
  { openChannel with Ordering := .ORDERED }

/-- As `baseCtx`, holding `orderedChannel` at ("portA", "chan-1"). -/
def orderedCtx : Ctx :=
  { baseCtx with channels := setKey emptyStore ("portA", "chan-1") orderedChannel }

/-- The proposal equal to `openChannel` except for its ordering, ORDERED; its state is
OPEN. -/
def reorderProposal : Channel :=
  { openChannel with Ordering := .ORDERED }

/-- As `baseCtx`, with a second channel ("portA", "chan-2") that has an upgrade attempt of
its own: restore channel `openChannel`, sequence 9, timeout (height 7, time 70). -/
def twoChannelCtx : Ctx :=
  { baseCtx with
    channels := setKey baseCtx.channels ("portA", "chan-2") openChannel
    upgradeRestoreChannels := setKey emptyStore ("portA", "chan-2") openChannel
    upgradeSequences := setKey emptyStore ("portA", "chan-2") 9
    upgradeTimeouts := setKey emptyStore ("portA", "chan-2") ⟨⟨0, 7⟩, 70⟩ }

/-- As `orderedProposal`, with an empty, non-nil list of connection hops. -/
def emptyHopsProposal : Channel :=
  { orderedProposal with ConnectionHops := .elems [] }

/-- As `orderedProposal`, with the nil slice as connection hops. -/
def nilHopsProposal : Channel :=
  { orderedProposal with ConnectionHops := .nil }

/-! ## Consensus State Store of a light client (07-tendermint `types`, store accessors) -/

/-- Modelled from the spec: the tendermint `ConsensusState` is not part of the source files
at hand; §3: the consensus fact is an opaque, client-type-specific payload. -/
structure ConsensusState where
  fact : List Nat
  deriving DecidableEq, Repr

/-- Modelled from the spec: what can sit under a consensus-state key of a client store
(§4.3 and the cases of `TestGetConsensusState`): a consensus state of the expected
(tendermint) family, a consensus state of another family (solomachine), or a payload that
is no consensus state at all (a marshalled client state). -/
inductive StoredPayload where
  | tendermintConsensusState (consensusState : ConsensusState)
  | solomachineConsensusState (bz : List Nat)
  | clientState (bz : List Nat)
  deriving DecidableEq, Repr

/-- Modelled from the spec: the two error kinds of `GetConsensusState` (§4.3, §7). -/
inductive ConsensusError where
  | NotFound
  | InvalidConsensusState
  deriving DecidableEq, Repr

/-- Modelled from the spec: the store of one client (§2, §3): per height the consensus
payload, the processed time in nanoseconds and the processed local height. -/
structure ClientStore where
  consensusStates : Height → Option StoredPayload
  processedTimes : Height → Option Nat
  processedHeights : Height → Option Height

/-- Writing one height of a client-store map: `Set(key, value)` of §6. -/
def setAt {α : Type} (m : Height → Option α) (height : Height) (v : α) : Height → Option α :=
  fun height' => if height' = height then some v else m height'

/-- A client store in which nothing was written. -/
def emptyClientStore : ClientStore :=
  { consensusStates := fun _ => none
    processedTimes := fun _ => none
    processedHeights := fun _ => none }

/-- Modelled from the spec: `GetConsensusState` is not part of the source files at hand
(only its test is); §4.3: NotFound when nothing is stored at the height,
InvalidConsensusState when the stored payload is not of the expected family, the stored
consensus state otherwise. The pair is Go's `(*ConsensusState, error)`. -/
def GetConsensusState (store : ClientStore) (height : Height) :
    Option ConsensusState × Option ConsensusError :=
  match store.consensusStates height with
  | none => (none, some .NotFound)
  | some (.tendermintConsensusState consensusState) => (some consensusState, none)
  | some (.solomachineConsensusState _) => (none, some .InvalidConsensusState)
  | some (.clientState _) => (none, some .InvalidConsensusState)

/-- Modelled from the spec: `GetProcessedTime` is not part of the source files at hand
(only its test is); §4.3: a pure lookup returning `(timestamp, found)`, the timestamp
being the zero value when nothing is found. -/
def GetProcessedTime (store : ClientStore) (height : Height) : Nat × Bool :=
  match store.processedTimes height with
  | some time => (time, true)
  | none => (0, false)

/-- Modelled from the spec: `GetProcessedHeight` is not part of the source files at hand
(only its test is); §4.3: a pure lookup returning `(height, found)`, the height being
nil when nothing is found. -/
def GetProcessedHeight (store : ClientStore) (height : Height) : Option Height × Bool :=
  match store.processedHeights height with
  | some processed => (some processed, true)
  | none => (none, false)

/-- Modelled from the spec: the writes a client store receives (§4.3 write path, and
`store.Set(host.ConsensusStateKey(height), bz)` of the test). -/
inductive ClientWrite where
  | consensus (height : Height) (payload : StoredPayload)
  | processedTime (height : Height) (time : Nat)
  | processedHeight (height : Height) (processed : Height)
  deriving DecidableEq, Repr

/-- Modelled from the spec: one write, `Set(key, value)` of §6 on the map it addresses. -/
def applyWrite (store : ClientStore) : ClientWrite → ClientStore
  | .consensus height payload =>
    { store with consensusStates := setAt store.consensusStates height payload }
  | .processedTime height time =>
    { store with processedTimes := setAt store.processedTimes height time }
  | .processedHeight height processed =>
    { store with processedHeights := setAt store.processedHeights height processed }

/-- The store after a sequence of writes, oldest first. -/
def applyWrites (store : ClientStore) (writes : List ClientWrite) : ClientStore :=
  writes.foldl applyWrite store

/-- The writes of creating a client at height (0, 5) and updating it at height (0, 8). -/
def sampleWrites : List ClientWrite :=
  [ .consensus ⟨0, 5⟩ (.tendermintConsensusState ⟨[1, 2, 3]⟩),
    .processedTime ⟨0, 5⟩ 1000000005,
    .processedHeight ⟨0, 5⟩ ⟨0, 11⟩,
    .consensus ⟨0, 8⟩ (.tendermintConsensusState ⟨[4, 5, 6]⟩),
    .processedTime ⟨0, 8⟩ 1000000010,
    .processedHeight ⟨0, 8⟩ ⟨0, 12⟩ ]

/-- The client store after `sampleWrites`. -/
def sampleClientStore : ClientStore :=
  applyWrites emptyClientStore sampleWrites

/-- As `sampleClientStore`, with a solomachine consensus state set at height (0, 8) and a
marshalled client state set at height (0, 5), as the test does. -/
def malleatedClientStore : ClientStore :=
  applyWrites sampleClientStore
    [ .consensus ⟨0, 8⟩ (.solomachineConsensusState []),
      .consensus ⟨0, 5⟩ (.clientState []) ]

/-- The proposal that changes only the version of `openChannel`, to "v2", and carries
state INITUPGRADE. -/
def versionProposal : Channel :=
  { openChannel with State := .INITUPGRADE, Version := "v2" }

/-! ## The checks of the Init step as the specification words them -/

/-- Checks 2 to 7 of §4.1 in the order the specification lists them, each paired with the
error it reports; a check fails when its first component is `true`. `stored` is the
channel found by check 1 and `hop` the first connection hop of the proposal. -/
def initChecks (ctx : Ctx) (portID channelID : String) (chanCap : Capability)
    (proposedChannel stored : Channel) (hop : String) : List (Bool × Error) :=
  [ (decide (stored.State ≠ .OPEN), .ErrInvalidChannelState),
    (!ctx.AuthenticateCapability chanCap (ctx.ChannelCapabilityPath portID channelID),
      .ErrChannelCapabilityNotFound),
    (decide (proposedChannel = { stored with State := .INITUPGRADE }), .ErrChannelExists),
    (!ctx.HasConnection hop, .ErrConnectionNotFound),
    (decide (proposedChannel.Counterparty.PortId ≠ stored.Counterparty.PortId ∨
        proposedChannel.Counterparty.ChannelId ≠ stored.Counterparty.ChannelId),
      .ErrInvalidCounterparty),
    (!stored.Ordering.SubsetOf proposedChannel.Ordering, .ErrInvalidChannelOrdering) ]

/-- The error of the first failing check of §4.1 (check 1, then `initChecks` in order), or
`none` when no check fails. -/
def firstFailingCheck (ctx : Ctx) (portID channelID : String) (chanCap : Capability)
    (proposedChannel : Channel) (hop : String) : Option Error :=
  match ctx.channels (portID, channelID) with
  | none => some .ErrChannelNotFound
  | some stored =>
    ((initChecks ctx portID channelID chanCap proposedChannel stored hop).find?
      (fun check => check.1)).map (fun check => check.2)

/-- Ordering `a` is strictly weaker than ordering `b`: `a` is a subset of `b` and differs
from it (§3). -/
def Order.StrictlyWeaker (a b : Order) : Prop :=
  a.SubsetOf b = true ∧ a ≠ b

instance (a b : Order) : Decidable (a.StrictlyWeaker b) := by
  unfold Order.StrictlyWeaker; infer_instance

/-! ## Shared lemmas on `ChanUpgradeInit` -/

/-- When every check passes, the call stages the attempt and returns the computed
sequence with the stored version. -/
theorem ChanUpgradeInit_ok {ctx : Ctx} {p c : String} {cap : Capability} {prop : Channel}
    {h : Height} {t : Nat} {stored : Channel} {hop : String}
    (hch : GetChannel ctx p c = some stored) (hopen : stored.State = .OPEN)
    (hauth : ctx.AuthenticateCapability cap (ctx.ChannelCapabilityPath p c) = true)
    (hne : { stored with State := .INITUPGRADE } ≠ prop)
    (hhop : prop.ConnectionHops.index 0 = some hop) (hconn : ctx.HasConnection hop = true)
    (hport : prop.Counterparty.PortId = stored.Counterparty.PortId)
    (hchan : prop.Counterparty.ChannelId = stored.Counterparty.ChannelId)
    (hord : stored.Ordering.SubsetOf prop.Ordering = true) :
    ChanUpgradeInit ctx p c cap prop h t =
      (SetUpgradeTimeout (SetUpgradeSequence (SetUpgradeRestoreChannel ctx p c stored) p c
          (match GetUpgradeSequence ctx p c with
            | some s => (s + 1) % uint64Size
            | none => 1)) p c ⟨h, t⟩,
        .returns ((match GetUpgradeSequence ctx p c with
            | some s => (s + 1) % uint64Size
            | none => 1), stored.Version, none)) := by
  simp [ChanUpgradeInit, hch, hopen, hauth, hne, hhop, hconn, hport, hchan, hord]

/-- A call that returns a nil error has passed every check. -/
theorem ChanUpgradeInit_ok_inv {ctx : Ctx} {p c : String} {cap : Capability} {prop : Channel}
    {h : Height} {ts : Nat} {seq : Nat} {v : String}
    (hok : (ChanUpgradeInit ctx p c cap prop h ts).2 = .returns (seq, v, none)) :
    ∃ stored hop, GetChannel ctx p c = some stored ∧ stored.State = .OPEN ∧
      ctx.AuthenticateCapability cap (ctx.ChannelCapabilityPath p c) = true ∧
      { stored with State := .INITUPGRADE } ≠ prop ∧
      prop.ConnectionHops.index 0 = some hop ∧ ctx.HasConnection hop = true ∧
      prop.Counterparty.PortId = stored.Counterparty.PortId ∧
      prop.Counterparty.ChannelId = stored.Counterparty.ChannelId ∧
      stored.Ordering.SubsetOf prop.Ordering = true := by
  cases hch : GetChannel ctx p c with
  | none => simp [ChanUpgradeInit, hch] at hok
  | some stored =>
    by_cases hopen : stored.State = .OPEN
    · by_cases hauth : ctx.AuthenticateCapability cap (ctx.ChannelCapabilityPath p c) = true
      · by_cases hne : { stored with State := .INITUPGRADE } = prop
        · simp [ChanUpgradeInit, hch, hopen, hauth, hne] at hok
        · cases hhop : prop.ConnectionHops.index 0 with
          | none => simp [ChanUpgradeInit, hch, hopen, hauth, hne, hhop] at hok
          | some hop =>
            by_cases hconn : ctx.HasConnection hop = true
            · by_cases hport : prop.Counterparty.PortId = stored.Counterparty.PortId
              · by_cases hchan : prop.Counterparty.ChannelId = stored.Counterparty.ChannelId
                · by_cases hord : stored.Ordering.SubsetOf prop.Ordering = true
                  · exact ⟨stored, hop, rfl, hopen, hauth, hne, rfl, hconn, hport, hchan, hord⟩
                  · simp [ChanUpgradeInit, hch, hopen, hauth, hne, hhop, hconn, hport, hchan,
                      hord] at hok
                · simp [ChanUpgradeInit, hch, hopen, hauth, hne, hhop, hconn, hport, hchan] at hok
              · simp [ChanUpgradeInit, hch, hopen, hauth, hne, hhop, hconn, hport] at hok
            · simp [ChanUpgradeInit, hch, hopen, hauth, hne, hhop, hconn] at hok
      · simp [ChanUpgradeInit, hch, hopen, hauth] at hok
    · simp [ChanUpgradeInit, hch, hopen] at hok

/-- Every call either returns a nil error or hands back the context it received. -/
theorem ChanUpgradeInit_ok_or_same (ctx : Ctx) (p c : String) (cap : Capability)
    (prop : Channel) (h : Height) (ts : Nat) :
    (∃ seq v, (ChanUpgradeInit ctx p c cap prop h ts).2 = .returns (seq, v, none)) ∨
      (ChanUpgradeInit ctx p c cap prop h ts).1 = ctx := by
  cases hch : GetChannel ctx p c with
  | none => right; simp [ChanUpgradeInit, hch]
  | some stored =>
    by_cases hopen : stored.State = .OPEN
    · by_cases hauth : ctx.AuthenticateCapability cap (ctx.ChannelCapabilityPath p c) = true
      · by_cases hne : { stored with State := .INITUPGRADE } = prop
        · right; simp [ChanUpgradeInit, hch, hopen, hauth, hne]
        · cases hhop : prop.ConnectionHops.index 0 with
          | none => right; simp [ChanUpgradeInit, hch, hopen, hauth, hne, hhop]
          | some hop =>
            by_cases hconn : ctx.HasConnection hop = true
            · by_cases hport : prop.Counterparty.PortId = stored.Counterparty.PortId
              · by_cases hchan : prop.Counterparty.ChannelId = stored.Counterparty.ChannelId
                · by_cases hord : stored.Ordering.SubsetOf prop.Ordering = true
                  · left
                    rw [ChanUpgradeInit_ok hch hopen hauth hne hhop hconn hport hchan hord]
                    exact ⟨_, _, rfl⟩
                  · right
                    simp [ChanUpgradeInit, hch, hopen, hauth, hne, hhop, hconn, hport, hchan, hord]
                · right; simp [ChanUpgradeInit, hch, hopen, hauth, hne, hhop, hconn, hport, hchan]
              · right; simp [ChanUpgradeInit, hch, hopen, hauth, hne, hhop, hconn, hport]
            · right; simp [ChanUpgradeInit, hch, hopen, hauth, hne, hhop, hconn]
      · right; simp [ChanUpgradeInit, hch, hopen, hauth]
    · right; simp [ChanUpgradeInit, hch, hopen]

/-- Reading a key just written gives the written value. -/
theorem setKey_same {α : Type} (m : ChanKey → Option α) (key : ChanKey) (v : α) :
    setKey m key v key = some v := by
  simp [setKey]

/-- Writing a key leaves every other key as it was. -/
theorem setKey_other {α : Type} (m : ChanKey → Option α) (key key' : ChanKey) (v : α)
    (hne : key' ≠ key) : setKey m key v key' = m key' := by
  simp [setKey, hne]

/-! ## Properties of the Init step -/

/-- C1: for every context and every input whose proposed channel has a first connection
hop, `ChanUpgradeInit` returns `(0, "", err)` where `err` is the error of the first failing
check in the order ChannelNotFound, InvalidChannelState, ChannelCapabilityNotFound,
ChannelExists, ConnectionNotFound, InvalidCounterparty, InvalidChannelOrdering, and it
returns a nil error exactly when no check fails. -/
theorem chanUpgradeInit_first_failing_check (ctx : Ctx) (portID channelID : String)
    (chanCap : Capability) (proposedChannel : Channel) (timeoutHeight : Height)
    (timeoutTimestamp : Nat) (hop : String)
    (hhop : proposedChannel.ConnectionHops.index 0 = some hop) :
    (∀ e, firstFailingCheck ctx portID channelID chanCap proposedChannel hop = some e →
        (ChanUpgradeInit ctx portID channelID chanCap proposedChannel timeoutHeight
          timeoutTimestamp).2 = .returns (0, "", some e)) ∧
      (firstFailingCheck ctx portID channelID chanCap proposedChannel hop = none ↔
        ∃ seq v, (ChanUpgradeInit ctx portID channelID chanCap proposedChannel timeoutHeight
          timeoutTimestamp).2 = .returns (seq, v, none)) := by
  cases hch : GetChannel ctx portID channelID with
  | none =>
    have hch' : ctx.channels (portID, channelID) = none := hch
    simp [firstFailingCheck, ChanUpgradeInit, hch, hch']
  | some stored =>
    have hch' : ctx.channels (portID, channelID) = some stored := hch
    by_cases hopen : stored.State = .OPEN
    · by_cases hauth : ctx.AuthenticateCapability chanCap
          (ctx.ChannelCapabilityPath portID channelID) = true
      · by_cases hne : { stored with State := .INITUPGRADE } = proposedChannel
        · have hne' : proposedChannel = { stored with State := .INITUPGRADE } := hne.symm
          simp [firstFailingCheck, initChecks, ChanUpgradeInit, hch, hch', hopen, hauth, hne,
            ← hne']
        · have hne' : ¬ proposedChannel = { stored with State := .INITUPGRADE } :=
            fun hh => hne hh.symm
          by_cases hconn : ctx.HasConnection hop = true
          · by_cases hport : proposedChannel.Counterparty.PortId = stored.Counterparty.PortId
            · by_cases hchan :
                  proposedChannel.Counterparty.ChannelId = stored.Counterparty.ChannelId
              · by_cases hord : stored.Ordering.SubsetOf proposedChannel.Ordering = true
                · simp [firstFailingCheck, initChecks, ChanUpgradeInit, hch, hch', hopen, hauth,
                    hne, hne', hhop, hconn, hport, hchan, hord]
                · simp [firstFailingCheck, initChecks, ChanUpgradeInit, hch, hch', hopen, hauth,
                    hne, hne', hhop, hconn, hport, hchan, hord]
              · simp [firstFailingCheck, initChecks, ChanUpgradeInit, hch, hch', hopen, hauth,
                  hne, hne', hhop, hconn, hport, hchan]
            · simp [firstFailingCheck, initChecks, ChanUpgradeInit, hch, hch', hopen, hauth,
                hne, hne', hhop, hconn, hport]
          · simp [firstFailingCheck, initChecks, ChanUpgradeInit, hch, hch', hopen, hauth,
              hne, hne', hhop, hconn]
      · simp [firstFailingCheck, initChecks, ChanUpgradeInit, hch, hch', hopen, hauth]
    · simp [firstFailingCheck, initChecks, ChanUpgradeInit, hch, hch', hopen]

/-- Witness for C1: the proposal that only strengthens the ordering of `openChannel`. -/
theorem chanUpgradeInit_first_failing_check_witness :
    orderedProposal.ConnectionHops.index 0 = some "connection-0" ∧
      ((∀ e, firstFailingCheck baseCtx "portA" "chan-1" none orderedProposal "connection-0"
            = some e →
          (ChanUpgradeInit baseCtx "portA" "chan-1" none orderedProposal ⟨0, 100⟩ 5000).2
            = .returns (0, "", some e)) ∧
        (firstFailingCheck baseCtx "portA" "chan-1" none orderedProposal "connection-0" = none ↔
          ∃ seq v, (ChanUpgradeInit baseCtx "portA" "chan-1" none orderedProposal ⟨0, 100⟩
            5000).2 = .returns (seq, v, none))) :=
  ⟨by decide,
    chanUpgradeInit_first_failing_check baseCtx "portA" "chan-1" none orderedProposal ⟨0, 100⟩
      5000 "connection-0" (by decide)⟩

/-- C2: whenever `ChanUpgradeInit` returns an error, the context it hands back is the one
it received; in particular the Channel Record Store and the restore-channel, sequence and
timeout maps of the Upgrade Attempt Store read the same at every (port, channel) key. -/
theorem chanUpgradeInit_error_writes_nothing (ctx : Ctx) (portID channelID : String)
    (chanCap : Capability) (proposedChannel : Channel) (timeoutHeight : Height)
    (timeoutTimestamp : Nat) (seq : Nat) (v : String) (e : Error)
    (herr : (ChanUpgradeInit ctx portID channelID chanCap proposedChannel timeoutHeight
      timeoutTimestamp).2 = .returns (seq, v, some e)) :
    (ChanUpgradeInit ctx portID channelID chanCap proposedChannel timeoutHeight
        timeoutTimestamp).1 = ctx ∧
      ∀ p c : String,
        GetChannel (ChanUpgradeInit ctx portID channelID chanCap proposedChannel timeoutHeight
            timeoutTimestamp).1 p c = GetChannel ctx p c ∧
          GetUpgradeRestoreChannel (ChanUpgradeInit ctx portID channelID chanCap
            proposedChannel timeoutHeight timeoutTimestamp).1 p c
              = GetUpgradeRestoreChannel ctx p c ∧
          GetUpgradeSequence (ChanUpgradeInit ctx portID channelID chanCap proposedChannel
            timeoutHeight timeoutTimestamp).1 p c = GetUpgradeSequence ctx p c ∧
          GetUpgradeTimeout (ChanUpgradeInit ctx portID channelID chanCap proposedChannel
            timeoutHeight timeoutTimestamp).1 p c = GetUpgradeTimeout ctx p c := by
  rcases ChanUpgradeInit_ok_or_same ctx portID channelID chanCap proposedChannel timeoutHeight
    timeoutTimestamp with ⟨s, w, hok⟩ | hsame
  · rw [hok] at herr
    cases herr
  · rw [hsame]
    exact ⟨rfl, fun _ _ => ⟨rfl, rfl, rfl, rfl⟩⟩

/-- Witness for C2: a proposal that changes the counterparty is rejected. -/
theorem chanUpgradeInit_error_writes_nothing_witness :
    (ChanUpgradeInit seqCtx "portA" "chan-1" none foreignProposal ⟨0, 100⟩ 5000).2
        = .returns (0, "", some .ErrInvalidCounterparty) ∧
      ((ChanUpgradeInit seqCtx "portA" "chan-1" none foreignProposal ⟨0, 100⟩ 5000).1 = seqCtx ∧
        ∀ p c : String,
          GetChannel (ChanUpgradeInit seqCtx "portA" "chan-1" none foreignProposal ⟨0, 100⟩
              5000).1 p c = GetChannel seqCtx p c ∧
            GetUpgradeRestoreChannel (ChanUpgradeInit seqCtx "portA" "chan-1" none
              foreignProposal ⟨0, 100⟩ 5000).1 p c = GetUpgradeRestoreChannel seqCtx p c ∧
            GetUpgradeSequence (ChanUpgradeInit seqCtx "portA" "chan-1" none foreignProposal
              ⟨0, 100⟩ 5000).1 p c = GetUpgradeSequence seqCtx p c ∧
            GetUpgradeTimeout (ChanUpgradeInit seqCtx "portA" "chan-1" none foreignProposal
              ⟨0, 100⟩ 5000).1 p c = GetUpgradeTimeout seqCtx p c) :=
  ⟨by decide,
    chanUpgradeInit_error_writes_nothing seqCtx "portA" "chan-1" none foreignProposal ⟨0, 100⟩
      5000 0 "" .ErrInvalidCounterparty (by decide)⟩

/-- C3: after a successful `ChanUpgradeInit` on (port, channel), the Upgrade Attempt Store
holds there the channel that was stored before the call (state OPEN) as restore channel,
the returned sequence, and the timeout built from the two timeout arguments as passed;
the returned previous version is the version of that stored channel. -/
theorem chanUpgradeInit_stages_attempt (ctx : Ctx) (portID channelID : String)
    (chanCap : Capability) (proposedChannel : Channel) (timeoutHeight : Height)
    (timeoutTimestamp : Nat) (seq : Nat) (v : String)
    (hok : (ChanUpgradeInit ctx portID channelID chanCap proposedChannel timeoutHeight
      timeoutTimestamp).2 = .returns (seq, v, none)) :
    ∃ stored, GetChannel ctx portID channelID = some stored ∧ stored.State = .OPEN ∧
      GetUpgradeRestoreChannel (ChanUpgradeInit ctx portID channelID chanCap proposedChannel
        timeoutHeight timeoutTimestamp).1 portID channelID = some stored ∧
      GetUpgradeSequence (ChanUpgradeInit ctx portID channelID chanCap proposedChannel
        timeoutHeight timeoutTimestamp).1 portID channelID = some seq ∧
      GetUpgradeTimeout (ChanUpgradeInit ctx portID channelID chanCap proposedChannel
        timeoutHeight timeoutTimestamp).1 portID channelID
          = some { TimeoutHeight := timeoutHeight, TimeoutTimestamp := timeoutTimestamp } ∧
      v = stored.Version := by
  obtain ⟨stored, hop, hch, hopen, hauth, hne, hhop, hconn, hport, hchan, hord⟩ :=
    ChanUpgradeInit_ok_inv hok
  have heq := ChanUpgradeInit_ok (h := timeoutHeight) (t := timeoutTimestamp)
    hch hopen hauth hne hhop hconn hport hchan hord
  rw [heq] at hok ⊢
  simp only [Outcome.returns.injEq, Prod.mk.injEq] at hok
  obtain ⟨hseq, hv, -⟩ := hok
  refine ⟨stored, hch, hopen, ?_, ?_, ?_, hv.symm⟩
  · simp [GetUpgradeRestoreChannel, SetUpgradeTimeout, SetUpgradeSequence,
      SetUpgradeRestoreChannel, setKey]
  · simp [GetUpgradeSequence, SetUpgradeTimeout, SetUpgradeSequence, setKey] at hseq ⊢
    exact hseq
  · simp [GetUpgradeTimeout, SetUpgradeTimeout, setKey]

/-- Witness for C3: the first upgrade attempt on `baseCtx`. -/
theorem chanUpgradeInit_stages_attempt_witness :
    (ChanUpgradeInit baseCtx "portA" "chan-1" none orderedProposal ⟨0, 100⟩ 5000).2
        = .returns (1, "v1", none) ∧
      ∃ stored, GetChannel baseCtx "portA" "chan-1" = some stored ∧ stored.State = .OPEN ∧
        GetUpgradeRestoreChannel (ChanUpgradeInit baseCtx "portA" "chan-1" none orderedProposal
          ⟨0, 100⟩ 5000).1 "portA" "chan-1" = some stored ∧
        GetUpgradeSequence (ChanUpgradeInit baseCtx "portA" "chan-1" none orderedProposal
          ⟨0, 100⟩ 5000).1 "portA" "chan-1" = some 1 ∧
        GetUpgradeTimeout (ChanUpgradeInit baseCtx "portA" "chan-1" none orderedProposal
          ⟨0, 100⟩ 5000).1 "portA" "chan-1"
            = some { TimeoutHeight := ⟨0, 100⟩, TimeoutTimestamp := 5000 } ∧
        "v1" = stored.Version :=
  ⟨by decide,
    chanUpgradeInit_stages_attempt baseCtx "portA" "chan-1" none orderedProposal ⟨0, 100⟩ 5000
      1 "v1" (by decide)⟩

/-- C4, counterexample: with the largest `uint64`, 18446744073709551615, stored as upgrade
sequence for ("portA", "chan-1"), a successful `ChanUpgradeInit` there returns 0, which is
not the stored sequence plus 1. -/
theorem chanUpgradeInit_plus_one_fails_at_max :
    GetUpgradeSequence maxSeqCtx "portA" "chan-1" = some 18446744073709551615 ∧
      (ChanUpgradeInit maxSeqCtx "portA" "chan-1" none versionProposal ⟨0, 100⟩ 5000).2
        = .returns (0, "v1", none) ∧
      (0 : Nat) ≠ 18446744073709551615 + 1 := by
  decide

/-- C4, amended: the sequence returned by a successful `ChanUpgradeInit` is 1 when no
upgrade sequence was stored for (port, channel), and when a sequence `s` was stored it is
the `uint64` sum `(s + 1) mod 2 ^ 64`, which is the stored sequence plus 1 whenever
`s + 1 < 2 ^ 64`. -/
theorem chanUpgradeInit_next_sequence (ctx : Ctx) (portID channelID : String)
    (chanCap : Capability) (proposedChannel : Channel) (timeoutHeight : Height)
    (timeoutTimestamp : Nat) (seq : Nat) (v : String)
    (hok : (ChanUpgradeInit ctx portID channelID chanCap proposedChannel timeoutHeight
      timeoutTimestamp).2 = .returns (seq, v, none)) :
    (GetUpgradeSequence ctx portID channelID = none → seq = 1) ∧
      ∀ s, GetUpgradeSequence ctx portID channelID = some s →
        seq = (s + 1) % uint64Size ∧ (s + 1 < uint64Size → seq = s + 1) := by
  obtain ⟨stored, hop, hch, hopen, hauth, hne, hhop, hconn, hport, hchan, hord⟩ :=
    ChanUpgradeInit_ok_inv hok
  rw [ChanUpgradeInit_ok hch hopen hauth hne hhop hconn hport hchan hord] at hok
  simp only [Outcome.returns.injEq, Prod.mk.injEq] at hok
  obtain ⟨hseq, -, -⟩ := hok
  refine ⟨fun hnone => ?_, fun s hs => ?_⟩
  · rw [hnone] at hseq
    exact hseq.symm
  · rw [hs] at hseq
    exact ⟨hseq.symm, fun hlt => by rw [← hseq]; exact Nat.mod_eq_of_lt hlt⟩

/-- Witness for C4, amended: a second attempt on a channel whose stored sequence is 4. -/
theorem chanUpgradeInit_next_sequence_witness :
    (ChanUpgradeInit seqCtx "portA" "chan-1" none orderedProposal ⟨0, 100⟩ 5000).2
        = .returns (5, "v1", none) ∧
      ((GetUpgradeSequence seqCtx "portA" "chan-1" = none → 5 = 1) ∧
        ∀ s, GetUpgradeSequence seqCtx "portA" "chan-1" = some s →
          5 = (s + 1) % uint64Size ∧ (s + 1 < uint64Size → 5 = s + 1)) :=
  ⟨by decide,
    chanUpgradeInit_next_sequence seqCtx "portA" "chan-1" none orderedProposal ⟨0, 100⟩ 5000 5 "v1"
      (by decide)⟩

/-- C5, counterexample: with the largest `uint64` stored as upgrade sequence, a successful
call stores and returns 0, which is not greater than the stored sequence. -/
theorem chanUpgradeInit_max_sequence_wraps :
    GetUpgradeSequence maxSeqCtx "portA" "chan-1" = some 18446744073709551615 ∧
      (ChanUpgradeInit maxSeqCtx "portA" "chan-1" none orderedProposal ⟨0, 100⟩ 5000).2
        = .returns (0, "v1", none) ∧
      GetUpgradeSequence (ChanUpgradeInit maxSeqCtx "portA" "chan-1" none orderedProposal
        ⟨0, 100⟩ 5000).1 "portA" "chan-1" = some 0 ∧
      ¬ (18446744073709551615 < 0) := by
  decide

/-- C5, amended: for a successful `ChanUpgradeInit` on a (port, channel) with stored
sequence `s`, the sequence stored and returned is `s + 1`, strictly greater than `s`, when
`s` is below the largest `uint64`; when `s` is the largest `uint64` it is 0. -/
theorem chanUpgradeInit_increases_below_max (ctx : Ctx) (portID channelID : String)
    (chanCap : Capability) (proposedChannel : Channel) (timeoutHeight : Height)
    (timeoutTimestamp : Nat) (s seq : Nat) (v : String)
    (hs : GetUpgradeSequence ctx portID channelID = some s)
    (hok : (ChanUpgradeInit ctx portID channelID chanCap proposedChannel timeoutHeight
      timeoutTimestamp).2 = .returns (seq, v, none)) :
    GetUpgradeSequence (ChanUpgradeInit ctx portID channelID chanCap proposedChannel
        timeoutHeight timeoutTimestamp).1 portID channelID = some seq ∧
      (s < uint64Size - 1 → seq = s + 1 ∧ s < seq) ∧
      (s = uint64Size - 1 → seq = 0) := by
  obtain ⟨stored, hop, hch, hopen, hauth, hne, hhop, hconn, hport, hchan, hord⟩ :=
    ChanUpgradeInit_ok_inv hok
  have heq := ChanUpgradeInit_ok (h := timeoutHeight) (t := timeoutTimestamp)
    hch hopen hauth hne hhop hconn hport hchan hord
  rw [heq] at hok ⊢
  simp only [Outcome.returns.injEq, Prod.mk.injEq] at hok
  obtain ⟨hseq, -, -⟩ := hok
  have hstored : GetUpgradeSequence (SetUpgradeTimeout (SetUpgradeSequence
      (SetUpgradeRestoreChannel ctx portID channelID stored) portID channelID
        (match GetUpgradeSequence ctx portID channelID with
          | some s => (s + 1) % uint64Size
          | none => 1)) portID channelID ⟨timeoutHeight, timeoutTimestamp⟩) portID channelID
      = some seq := by
    rw [← hseq]
    simp [GetUpgradeSequence, SetUpgradeTimeout, SetUpgradeSequence, setKey]
  rw [hs] at hseq
  simp only at hseq
  refine ⟨hstored, fun hlt => ?_, fun hmax => ?_⟩
  · have hlt' : s + 1 < uint64Size := by
      have : 0 < uint64Size := by decide
      omega
    rw [Nat.mod_eq_of_lt hlt'] at hseq
    omega
  · subst hmax
    rw [← hseq]
    decide

/-- Witness for C5, amended: the fifth attempt on `seqCtx`. -/
theorem chanUpgradeInit_increases_below_max_witness :
    (GetUpgradeSequence seqCtx "portA" "chan-1" = some 4 ∧
      (ChanUpgradeInit seqCtx "portA" "chan-1" none orderedProposal ⟨0, 100⟩ 5000).2
        = .returns (5, "v1", none)) ∧
      (GetUpgradeSequence (ChanUpgradeInit seqCtx "portA" "chan-1" none orderedProposal
          ⟨0, 100⟩ 5000).1 "portA" "chan-1" = some 5 ∧
        (4 < uint64Size - 1 → 5 = 4 + 1 ∧ 4 < 5) ∧
        (4 = uint64Size - 1 → 5 = 0)) :=
  ⟨⟨by decide, by decide⟩,
    chanUpgradeInit_increases_below_max seqCtx "portA" "chan-1" none orderedProposal ⟨0, 100⟩
      5000 4 5 "v1" (by decide) (by decide)⟩

/-- C6, counterexample: a proposal that differs from the stored OPEN channel only in its
state, with state CLOSED, is not rejected as a no-op: the call succeeds. -/
theorem chanUpgradeInit_state_only_change_accepted :
    GetChannel baseCtx "portA" "chan-1" = some openChannel ∧ openChannel.State = .OPEN ∧
      baseCtx.AuthenticateCapability none (baseCtx.ChannelCapabilityPath "portA" "chan-1")
        = true ∧
      closedProposal = { openChannel with State := .CLOSED } ∧
      (ChanUpgradeInit baseCtx "portA" "chan-1" none closedProposal ⟨0, 100⟩ 5000).2
        = .returns (1, "v1", none) ∧
      (ChanUpgradeInit baseCtx "portA" "chan-1" none closedProposal ⟨0, 100⟩ 5000).2
        ≠ .returns (0, "", some .ErrChannelExists) := by
  decide

/-- C6, amended: for a stored OPEN channel whose capability authenticates,
`ChanUpgradeInit` fails with ChannelExists exactly when the proposed channel has state
INITUPGRADE and its ordering, connection hops, version and counterparty equal the stored
ones. -/
theorem chanUpgradeInit_noop_rejected (ctx : Ctx) (portID channelID : String)
    (chanCap : Capability) (proposedChannel : Channel) (timeoutHeight : Height)
    (timeoutTimestamp : Nat) (stored : Channel)
    (hch : GetChannel ctx portID channelID = some stored) (hopen : stored.State = .OPEN)
    (hauth : ctx.AuthenticateCapability chanCap (ctx.ChannelCapabilityPath portID channelID)
      = true) :
    (ChanUpgradeInit ctx portID channelID chanCap proposedChannel timeoutHeight
        timeoutTimestamp).2 = .returns (0, "", some .ErrChannelExists) ↔
      (proposedChannel.State = .INITUPGRADE ∧ proposedChannel.Ordering = stored.Ordering ∧
        proposedChannel.ConnectionHops = stored.ConnectionHops ∧
        proposedChannel.Version = stored.Version ∧
        proposedChannel.Counterparty = stored.Counterparty) := by
  have hfields : { stored with State := .INITUPGRADE } = proposedChannel ↔
      (proposedChannel.State = .INITUPGRADE ∧ proposedChannel.Ordering = stored.Ordering ∧
        proposedChannel.ConnectionHops = stored.ConnectionHops ∧
        proposedChannel.Version = stored.Version ∧
        proposedChannel.Counterparty = stored.Counterparty) := by
    constructor
    · intro hh
      subst hh
      exact ⟨rfl, rfl, rfl, rfl, rfl⟩
    · rintro ⟨h1, h2, h3, h4, h5⟩
      cases proposedChannel
      simp_all
  rw [← hfields]
  by_cases hne : { stored with State := .INITUPGRADE } = proposedChannel
  · simp [ChanUpgradeInit, hch, hopen, hauth, hne]
  · simp only [hne, iff_false]
    cases hhop : proposedChannel.ConnectionHops.index 0 with
    | none => simp [ChanUpgradeInit, hch, hopen, hauth, hne, hhop]
    | some hop =>
      by_cases hconn : ctx.HasConnection hop = true
      · by_cases hport : proposedChannel.Counterparty.PortId = stored.Counterparty.PortId
        · by_cases hchan :
              proposedChannel.Counterparty.ChannelId = stored.Counterparty.ChannelId
          · by_cases hord : stored.Ordering.SubsetOf proposedChannel.Ordering = true
            · rw [ChanUpgradeInit_ok hch hopen hauth hne hhop hconn hport hchan hord]
              simp
            · simp [ChanUpgradeInit, hch, hopen, hauth, hne, hhop, hconn, hport, hchan, hord]
          · simp [ChanUpgradeInit, hch, hopen, hauth, hne, hhop, hconn, hport, hchan]
        · simp [ChanUpgradeInit, hch, hopen, hauth, hne, hhop, hconn, hport]
      · simp [ChanUpgradeInit, hch, hopen, hauth, hne, hhop, hconn]

/-- Witness for C6, amended: proposing `openChannel` with only the state bumped. -/
theorem chanUpgradeInit_noop_rejected_witness :
    (GetChannel baseCtx "portA" "chan-1" = some openChannel ∧ openChannel.State = .OPEN ∧
      baseCtx.AuthenticateCapability none (baseCtx.ChannelCapabilityPath "portA" "chan-1")
        = true) ∧
      ((ChanUpgradeInit baseCtx "portA" "chan-1" none noopProposal ⟨0, 100⟩ 5000).2
          = .returns (0, "", some .ErrChannelExists) ↔
        (noopProposal.State = .INITUPGRADE ∧ noopProposal.Ordering = openChannel.Ordering ∧
          noopProposal.ConnectionHops = openChannel.ConnectionHops ∧
          noopProposal.Version = openChannel.Version ∧
          noopProposal.Counterparty = openChannel.Counterparty)) :=
  ⟨⟨by decide, by decide, by decide⟩,
    chanUpgradeInit_noop_rejected baseCtx "portA" "chan-1" none noopProposal ⟨0, 100⟩ 5000
      openChannel (by decide) (by decide) (by decide)⟩

/-- C7, counterexample: a proposal that changes the counterparty and whose first
connection hop is unknown fails with ConnectionNotFound, not InvalidCounterparty. -/
theorem chanUpgradeInit_counterparty_after_connection :
    GetChannel baseCtx "portA" "chan-1" = some openChannel ∧ openChannel.State = .OPEN ∧
      baseCtx.AuthenticateCapability none (baseCtx.ChannelCapabilityPath "portA" "chan-1")
        = true ∧
      strayProposal.Counterparty.PortId ≠ openChannel.Counterparty.PortId ∧
      (ChanUpgradeInit baseCtx "portA" "chan-1" none strayProposal ⟨0, 100⟩ 5000).2
        = .returns (0, "", some .ErrConnectionNotFound) ∧
      (ChanUpgradeInit baseCtx "portA" "chan-1" none strayProposal ⟨0, 100⟩ 5000).2
        ≠ .returns (0, "", some .ErrInvalidCounterparty) := by
  decide

/-- C7, amended: for a stored OPEN channel whose capability authenticates and a proposal
whose counterparty port id or channel id differs from the stored one and which has a first
connection hop, `ChanUpgradeInit` fails with InvalidCounterparty when that hop is a known
connection, whatever the proposal's ordering, version, state and further hops, and with
ConnectionNotFound when it is not. -/
theorem chanUpgradeInit_counterparty_immutable (ctx : Ctx) (portID channelID : String)
    (chanCap : Capability) (proposedChannel : Channel) (timeoutHeight : Height)
    (timeoutTimestamp : Nat) (stored : Channel) (hop : String)
    (hch : GetChannel ctx portID channelID = some stored) (hopen : stored.State = .OPEN)
    (hauth : ctx.AuthenticateCapability chanCap (ctx.ChannelCapabilityPath portID channelID)
      = true)
    (hcp : proposedChannel.Counterparty.PortId ≠ stored.Counterparty.PortId ∨
      proposedChannel.Counterparty.ChannelId ≠ stored.Counterparty.ChannelId)
    (hhop : proposedChannel.ConnectionHops.index 0 = some hop) :
    (ctx.HasConnection hop = true →
        (ChanUpgradeInit ctx portID channelID chanCap proposedChannel timeoutHeight
          timeoutTimestamp).2 = .returns (0, "", some .ErrInvalidCounterparty)) ∧
      (ctx.HasConnection hop = false →
        (ChanUpgradeInit ctx portID channelID chanCap proposedChannel timeoutHeight
          timeoutTimestamp).2 = .returns (0, "", some .ErrConnectionNotFound)) := by
  have hne : { stored with State := .INITUPGRADE } ≠ proposedChannel := by
    intro hh
    subst hh
    simp at hcp
  constructor
  · intro hconn
    have hcp' : ¬ proposedChannel.Counterparty.PortId = stored.Counterparty.PortId ∨
        ¬ proposedChannel.Counterparty.ChannelId = stored.Counterparty.ChannelId := hcp
    simp [ChanUpgradeInit, hch, hopen, hauth, hne, hhop, hconn, hcp']
  · intro hconn
    simp [ChanUpgradeInit, hch, hopen, hauth, hne, hhop, hconn]

/-- Witness for C7, amended: a proposal towards another counterparty port over the known
connection. -/
theorem chanUpgradeInit_counterparty_immutable_witness :
    (GetChannel baseCtx "portA" "chan-1" = some openChannel ∧ openChannel.State = .OPEN ∧
      baseCtx.AuthenticateCapability none (baseCtx.ChannelCapabilityPath "portA" "chan-1")
        = true ∧
      foreignProposal.Counterparty.PortId ≠ openChannel.Counterparty.PortId ∧
      foreignProposal.ConnectionHops.index 0 = some "connection-0") ∧
      (ChanUpgradeInit baseCtx "portA" "chan-1" none foreignProposal ⟨0, 100⟩ 5000).2
        = .returns (0, "", some .ErrInvalidCounterparty) :=
  ⟨⟨by decide, by decide, by decide, by decide, by decide⟩,
    (chanUpgradeInit_counterparty_immutable baseCtx "portA" "chan-1" none foreignProposal
      ⟨0, 100⟩ 5000 openChannel "connection-0" (by decide) (by decide) (by decide)
      (Or.inl (by decide)) (by decide)).1 (by decide)⟩

/-- C8: when checks 1 to 6 pass, `ChanUpgradeInit` fails with InvalidChannelOrdering if the
proposed ordering is strictly weaker than the stored one, and succeeds if it is equal to
or strictly stronger than the stored one; so a successful call never has a proposed
ordering strictly weaker than the stored one. -/
theorem chanUpgradeInit_ordering_only_strengthens (ctx : Ctx) (portID channelID : String)
    (chanCap : Capability) (proposedChannel : Channel) (timeoutHeight : Height)
    (timeoutTimestamp : Nat) (stored : Channel) (hop : String)
    (hch : GetChannel ctx portID channelID = some stored) (hopen : stored.State = .OPEN)
    (hauth : ctx.AuthenticateCapability chanCap (ctx.ChannelCapabilityPath portID channelID)
      = true)
    (hne : { stored with State := .INITUPGRADE } ≠ proposedChannel)
    (hhop : proposedChannel.ConnectionHops.index 0 = some hop)
    (hconn : ctx.HasConnection hop = true)
    (hport : proposedChannel.Counterparty.PortId = stored.Counterparty.PortId)
    (hchan : proposedChannel.Counterparty.ChannelId = stored.Counterparty.ChannelId) :
    (proposedChannel.Ordering.StrictlyWeaker stored.Ordering →
        (ChanUpgradeInit ctx portID channelID chanCap proposedChannel timeoutHeight
          timeoutTimestamp).2 = .returns (0, "", some .ErrInvalidChannelOrdering)) ∧
      (proposedChannel.Ordering = stored.Ordering ∨
          stored.Ordering.StrictlyWeaker proposedChannel.Ordering →
        ∃ seq, (ChanUpgradeInit ctx portID channelID chanCap proposedChannel timeoutHeight
          timeoutTimestamp).2 = .returns (seq, stored.Version, none)) ∧
      (∀ seq v, (ChanUpgradeInit ctx portID channelID chanCap proposedChannel timeoutHeight
          timeoutTimestamp).2 = .returns (seq, v, none) →
        ¬ proposedChannel.Ordering.StrictlyWeaker stored.Ordering) := by
  have hweak : proposedChannel.Ordering.StrictlyWeaker stored.Ordering →
      stored.Ordering.SubsetOf proposedChannel.Ordering = false := by
    rintro ⟨hsub, hdiff⟩
    cases hp : proposedChannel.Ordering <;> cases hs : stored.Ordering <;>
      simp_all [Order.SubsetOf]
  refine ⟨fun hw => ?_, fun hs => ?_, fun seq v hok hw => ?_⟩
  · simp [ChanUpgradeInit, hch, hopen, hauth, hne, hhop, hconn, hport, hchan, hweak hw]
  · have hord : stored.Ordering.SubsetOf proposedChannel.Ordering = true := by
      rcases hs with heq | ⟨hsub, -⟩
      · rw [heq]
        cases stored.Ordering <;> rfl
      · exact hsub
    rw [ChanUpgradeInit_ok hch hopen hauth hne hhop hconn hport hchan hord]
    exact ⟨_, rfl⟩
  · simp [ChanUpgradeInit, hch, hopen, hauth, hne, hhop, hconn, hport, hchan, hweak hw] at hok

/-- Witness for C8: weakening ORDERED to UNORDERED is refused, strengthening UNORDERED to
ORDERED is accepted. -/
theorem chanUpgradeInit_ordering_only_strengthens_witness :
    (ChanUpgradeInit orderedCtx "portA" "chan-1" none noopProposal ⟨0, 100⟩ 5000).2
        = .returns (0, "", some .ErrInvalidChannelOrdering) ∧
      ∃ seq, (ChanUpgradeInit baseCtx "portA" "chan-1" none orderedProposal ⟨0, 100⟩ 5000).2
        = .returns (seq, openChannel.Version, none) :=
  ⟨(chanUpgradeInit_ordering_only_strengthens orderedCtx "portA" "chan-1" none noopProposal
      ⟨0, 100⟩ 5000 orderedChannel "connection-0" (by decide) (by decide) (by decide)
      (by decide) (by decide) (by decide) (by decide) (by decide)).1 (by decide),
    (chanUpgradeInit_ordering_only_strengthens baseCtx "portA" "chan-1" none orderedProposal
      ⟨0, 100⟩ 5000 openChannel "connection-0" (by decide) (by decide) (by decide)
      (by decide) (by decide) (by decide) (by decide) (by decide)).2.1
      (Or.inr (by decide))⟩

/-! ## Init followed by the commit step -/

/-- C9, counterexample: `ChanUpgradeInit` accepts a proposal whose state is OPEN (only the
ordering changes); committing that proposal leaves a record in state OPEN, not
INITUPGRADE, in the Channel Record Store. -/
theorem writeUpgradeInitChannel_keeps_proposed_state :
    reorderProposal.State = .OPEN ∧
      (ChanUpgradeInit baseCtx "portA" "chan-1" none reorderProposal ⟨0, 100⟩ 5000).2
        = .returns (1, "v1", none) ∧
      GetChannel (WriteUpgradeInitChannel
        (ChanUpgradeInit baseCtx "portA" "chan-1" none reorderProposal ⟨0, 100⟩ 5000).1
        "portA" "chan-1" 1 reorderProposal) "portA" "chan-1" = some reorderProposal ∧
      ¬ ∃ record, GetChannel (WriteUpgradeInitChannel
          (ChanUpgradeInit baseCtx "portA" "chan-1" none reorderProposal ⟨0, 100⟩ 5000).1
          "portA" "chan-1" 1 reorderProposal) "portA" "chan-1" = some record ∧
        record.State = .INITUPGRADE := by
  refine ⟨by decide, by decide, by decide, ?_⟩
  rintro ⟨record, hrec, hstate⟩
  have hget : GetChannel (WriteUpgradeInitChannel
      (ChanUpgradeInit baseCtx "portA" "chan-1" none reorderProposal ⟨0, 100⟩ 5000).1
      "portA" "chan-1" 1 reorderProposal) "portA" "chan-1" = some reorderProposal := by
    decide
  rw [hget] at hrec
  cases hrec
  exact absurd hstate (by decide)

/-- C9, amended: after a successful `ChanUpgradeInit` with a proposal whose state is
INITUPGRADE, followed by `WriteUpgradeInitChannel` on the same (port, channel) with that
proposal, the Channel Record Store returns for (port, channel) a record whose state is
INITUPGRADE. -/
theorem init_then_write_state (ctx : Ctx) (portID channelID : String)
    (chanCap : Capability) (proposedChannel : Channel) (timeoutHeight : Height)
    (timeoutTimestamp : Nat) (seq : Nat) (v : String) (upgradeSequence : Nat)
    (_hok : (ChanUpgradeInit ctx portID channelID chanCap proposedChannel timeoutHeight
      timeoutTimestamp).2 = .returns (seq, v, none))
    (hstate : proposedChannel.State = .INITUPGRADE) :
    ∃ record, GetChannel (WriteUpgradeInitChannel
        (ChanUpgradeInit ctx portID channelID chanCap proposedChannel timeoutHeight
          timeoutTimestamp).1 portID channelID upgradeSequence proposedChannel)
        portID channelID = some record ∧
      record.State = .INITUPGRADE := by
  refine ⟨proposedChannel, ?_, hstate⟩
  simp [GetChannel, WriteUpgradeInitChannel, emitChannelUpgradeInitEvent, SetChannel, setKey]

/-- Witness for C9, amended: Init and commit of `orderedProposal` on `baseCtx`. -/
theorem init_then_write_state_witness :
    ((ChanUpgradeInit baseCtx "portA" "chan-1" none orderedProposal ⟨0, 100⟩ 5000).2
        = .returns (1, "v1", none) ∧ orderedProposal.State = .INITUPGRADE) ∧
      ∃ record, GetChannel (WriteUpgradeInitChannel
          (ChanUpgradeInit baseCtx "portA" "chan-1" none orderedProposal ⟨0, 100⟩ 5000).1
          "portA" "chan-1" 1 orderedProposal) "portA" "chan-1" = some record ∧
        record.State = .INITUPGRADE :=
  ⟨⟨by decide, by decide⟩,
    init_then_write_state baseCtx "portA" "chan-1" none orderedProposal ⟨0, 100⟩ 5000 1 "v1" 1
      (by decide) (by decide)⟩

/-- C10: after a successful `ChanUpgradeInit` on (port, channel) followed by
`WriteUpgradeInitChannel` there with any sequence and any new channel, the Channel Record
Store returns exactly that new channel at (port, channel), and the restore channel of the
Upgrade Attempt Store at (port, channel) is exactly the record that the Channel Record
Store held before the Init call, whose state is OPEN. -/
theorem init_then_write_round_trip (ctx : Ctx) (portID channelID : String)
    (chanCap : Capability) (proposedChannel : Channel) (timeoutHeight : Height)
    (timeoutTimestamp : Nat) (seq : Nat) (v : String) (upgradeSequence : Nat)
    (newChannel : Channel)
    (hok : (ChanUpgradeInit ctx portID channelID chanCap proposedChannel timeoutHeight
      timeoutTimestamp).2 = .returns (seq, v, none)) :
    GetChannel (WriteUpgradeInitChannel
        (ChanUpgradeInit ctx portID channelID chanCap proposedChannel timeoutHeight
          timeoutTimestamp).1 portID channelID upgradeSequence newChannel)
        portID channelID = some newChannel ∧
      ∃ stored, GetChannel ctx portID channelID = some stored ∧ stored.State = .OPEN ∧
        GetUpgradeRestoreChannel (WriteUpgradeInitChannel
          (ChanUpgradeInit ctx portID channelID chanCap proposedChannel timeoutHeight
            timeoutTimestamp).1 portID channelID upgradeSequence newChannel)
          portID channelID = some stored := by
  obtain ⟨stored, hop, hch, hopen, hauth, hne, hhop, hconn, hport, hchan, hord⟩ :=
    ChanUpgradeInit_ok_inv hok
  refine ⟨?_, stored, hch, hopen, ?_⟩
  · simp [GetChannel, WriteUpgradeInitChannel, emitChannelUpgradeInitEvent, SetChannel, setKey]
  · rw [ChanUpgradeInit_ok hch hopen hauth hne hhop hconn hport hchan hord]
    simp [GetUpgradeRestoreChannel, WriteUpgradeInitChannel, emitChannelUpgradeInitEvent,
      SetChannel, SetUpgradeTimeout, SetUpgradeSequence, SetUpgradeRestoreChannel, setKey]

/-- Witness for C10: Init with `orderedProposal` on `seqCtx`, then commit of it. -/
theorem init_then_write_round_trip_witness :
    (ChanUpgradeInit seqCtx "portA" "chan-1" none orderedProposal ⟨0, 100⟩ 5000).2
        = .returns (5, "v1", none) ∧
      (GetChannel (WriteUpgradeInitChannel
          (ChanUpgradeInit seqCtx "portA" "chan-1" none orderedProposal ⟨0, 100⟩ 5000).1
          "portA" "chan-1" 5 orderedProposal) "portA" "chan-1" = some orderedProposal ∧
        ∃ stored, GetChannel seqCtx "portA" "chan-1" = some stored ∧ stored.State = .OPEN ∧
          GetUpgradeRestoreChannel (WriteUpgradeInitChannel
            (ChanUpgradeInit seqCtx "portA" "chan-1" none orderedProposal ⟨0, 100⟩ 5000).1
            "portA" "chan-1" 5 orderedProposal) "portA" "chan-1" = some stored) :=
  ⟨by decide,
    init_then_write_round_trip seqCtx "portA" "chan-1" none orderedProposal ⟨0, 100⟩ 5000 5
      "v1" 5 orderedProposal (by decide)⟩

/-! ## Repeated Init, frame of Init and of the commit step -/

/-- What a successful Init leaves in the collaborators and in the Channel Record Store:
nothing changes there, and the sequence map holds the computed sequence. -/
theorem staged_reads (ctx : Ctx) (p c : String) (stored : Channel) (n : Nat)
    (u : UpgradeTimeout) :
    (SetUpgradeTimeout (SetUpgradeSequence (SetUpgradeRestoreChannel ctx p c stored) p c n)
        p c u).channels = ctx.channels ∧
      (SetUpgradeTimeout (SetUpgradeSequence (SetUpgradeRestoreChannel ctx p c stored) p c n)
        p c u).AuthenticateCapability = ctx.AuthenticateCapability ∧
      (SetUpgradeTimeout (SetUpgradeSequence (SetUpgradeRestoreChannel ctx p c stored) p c n)
        p c u).HasConnection = ctx.HasConnection ∧
      (SetUpgradeTimeout (SetUpgradeSequence (SetUpgradeRestoreChannel ctx p c stored) p c n)
        p c u).ChannelCapabilityPath = ctx.ChannelCapabilityPath ∧
      GetUpgradeSequence (SetUpgradeTimeout (SetUpgradeSequence
        (SetUpgradeRestoreChannel ctx p c stored) p c n) p c u) p c = some n := by
  simp [SetUpgradeTimeout, SetUpgradeSequence, SetUpgradeRestoreChannel, GetUpgradeSequence,
    setKey]

/-- C11: whenever `ChanUpgradeInit` succeeds returning sequence `n`, the same call repeated
on the resulting context, with no commit in between, succeeds and returns `n + 1` in
`uint64` arithmetic with the same previous version; in particular, for an OPEN UNORDERED
channel with no earlier attempt whose capability authenticates, proposing ORDERED with
the stored counterparty and a known first hop returns 1 the first time and 2 the second
time. -/
theorem chanUpgradeInit_twice (ctx : Ctx) (portID channelID : String)
    (chanCap : Capability) (proposedChannel : Channel) (timeoutHeight : Height)
    (timeoutTimestamp : Nat) :
    (∀ n v, (ChanUpgradeInit ctx portID channelID chanCap proposedChannel timeoutHeight
          timeoutTimestamp).2 = .returns (n, v, none) →
        (ChanUpgradeInit (ChanUpgradeInit ctx portID channelID chanCap proposedChannel
            timeoutHeight timeoutTimestamp).1 portID channelID chanCap proposedChannel
            timeoutHeight timeoutTimestamp).2 = .returns ((n + 1) % uint64Size, v, none)) ∧
      (∀ stored hop, GetChannel ctx portID channelID = some stored → stored.State = .OPEN →
        stored.Ordering = .UNORDERED →
        ctx.AuthenticateCapability chanCap (ctx.ChannelCapabilityPath portID channelID) = true →
        GetUpgradeSequence ctx portID channelID = none →
        proposedChannel.Ordering = .ORDERED →
        proposedChannel.Counterparty = stored.Counterparty →
        proposedChannel.ConnectionHops.index 0 = some hop → ctx.HasConnection hop = true →
        (ChanUpgradeInit ctx portID channelID chanCap proposedChannel timeoutHeight
            timeoutTimestamp).2 = .returns (1, stored.Version, none) ∧
          (ChanUpgradeInit (ChanUpgradeInit ctx portID channelID chanCap proposedChannel
            timeoutHeight timeoutTimestamp).1 portID channelID chanCap proposedChannel
            timeoutHeight timeoutTimestamp).2 = .returns (2, stored.Version, none)) := by
  have hgen : ∀ n v, (ChanUpgradeInit ctx portID channelID chanCap proposedChannel
        timeoutHeight timeoutTimestamp).2 = .returns (n, v, none) →
      (ChanUpgradeInit (ChanUpgradeInit ctx portID channelID chanCap proposedChannel
          timeoutHeight timeoutTimestamp).1 portID channelID chanCap proposedChannel
          timeoutHeight timeoutTimestamp).2 = .returns ((n + 1) % uint64Size, v, none) := by
    intro n v hok
    obtain ⟨stored, hop, hch, hopen, hauth, hne, hhop, hconn, hport, hchan, hord⟩ :=
      ChanUpgradeInit_ok_inv hok
    have heq := ChanUpgradeInit_ok (h := timeoutHeight) (t := timeoutTimestamp)
      hch hopen hauth hne hhop hconn hport hchan hord
    rw [heq] at hok
    simp only [Outcome.returns.injEq, Prod.mk.injEq] at hok
    obtain ⟨hn, hv, -⟩ := hok
    rw [hn] at heq
    rw [heq]
    obtain ⟨hc2, ha2, hh2, hp2, hs2⟩ := staged_reads ctx portID channelID stored n
      ⟨timeoutHeight, timeoutTimestamp⟩
    have hch2 : GetChannel (SetUpgradeTimeout (SetUpgradeSequence (SetUpgradeRestoreChannel
        ctx portID channelID stored) portID channelID n) portID channelID
        ⟨timeoutHeight, timeoutTimestamp⟩) portID channelID = some stored := by
      unfold GetChannel
      rw [hc2]
      exact hch
    rw [ChanUpgradeInit_ok hch2 hopen (by rw [ha2, hp2]; exact hauth) hne hhop
      (by rw [hh2]; exact hconn) hport hchan hord, hs2, hv]
  refine ⟨hgen, ?_⟩
  intro stored hop hch hopen hunord hauth hseq hordered hcp hhop hconn
  have hne : { stored with State := .INITUPGRADE } ≠ proposedChannel := by
    intro hh
    rw [← hh] at hordered
    simp only at hordered
    rw [hunord] at hordered
    cases hordered
  have hord : stored.Ordering.SubsetOf proposedChannel.Ordering = true := by
    rw [hunord, hordered]
    rfl
  have hfirst : (ChanUpgradeInit ctx portID channelID chanCap proposedChannel timeoutHeight
      timeoutTimestamp).2 = .returns (1, stored.Version, none) := by
    rw [ChanUpgradeInit_ok hch hopen hauth hne hhop hconn (by rw [hcp]) (by rw [hcp]) hord,
      hseq]
  exact ⟨hfirst, hgen 1 stored.Version hfirst⟩

/-- Witness for C11: the scenario of §8 on `baseCtx`, timeout (height 100, time 5000). -/
theorem chanUpgradeInit_twice_witness :
    (ChanUpgradeInit baseCtx "portA" "chan-1" none orderedProposal ⟨0, 100⟩ 5000).2
        = .returns (1, openChannel.Version, none) ∧
      (ChanUpgradeInit (ChanUpgradeInit baseCtx "portA" "chan-1" none orderedProposal ⟨0, 100⟩
        5000).1 "portA" "chan-1" none orderedProposal ⟨0, 100⟩ 5000).2
        = .returns (2, openChannel.Version, none) :=
  (chanUpgradeInit_twice baseCtx "portA" "chan-1" none orderedProposal ⟨0, 100⟩ 5000).2
    openChannel "connection-0" (by decide) (by decide) (by decide) (by decide) (by decide)
    (by decide) (by decide) (by decide) (by decide)

/-- C12: a successful `ChanUpgradeInit` on (port, channel) leaves the Channel Record Store
as it was at every key, so the channel at (port, channel) is still the stored OPEN record,
and leaves the restore channel, sequence and timeout of every other key as they were. -/
theorem chanUpgradeInit_only_stages (ctx : Ctx) (portID channelID : String)
    (chanCap : Capability) (proposedChannel : Channel) (timeoutHeight : Height)
    (timeoutTimestamp : Nat) (seq : Nat) (v : String)
    (hok : (ChanUpgradeInit ctx portID channelID chanCap proposedChannel timeoutHeight
      timeoutTimestamp).2 = .returns (seq, v, none)) :
    (∀ p c : String, GetChannel (ChanUpgradeInit ctx portID channelID chanCap proposedChannel
        timeoutHeight timeoutTimestamp).1 p c = GetChannel ctx p c) ∧
      (∃ stored, stored.State = .OPEN ∧ GetChannel ctx portID channelID = some stored ∧
        GetChannel (ChanUpgradeInit ctx portID channelID chanCap proposedChannel
          timeoutHeight timeoutTimestamp).1 portID channelID = some stored) ∧
      ∀ p c : String, (p, c) ≠ (portID, channelID) →
        GetUpgradeRestoreChannel (ChanUpgradeInit ctx portID channelID chanCap
            proposedChannel timeoutHeight timeoutTimestamp).1 p c
              = GetUpgradeRestoreChannel ctx p c ∧
          GetUpgradeSequence (ChanUpgradeInit ctx portID channelID chanCap proposedChannel
            timeoutHeight timeoutTimestamp).1 p c = GetUpgradeSequence ctx p c ∧
          GetUpgradeTimeout (ChanUpgradeInit ctx portID channelID chanCap proposedChannel
            timeoutHeight timeoutTimestamp).1 p c = GetUpgradeTimeout ctx p c := by
  obtain ⟨stored, hop, hch, hopen, hauth, hne, hhop, hconn, hport, hchan, hord⟩ :=
    ChanUpgradeInit_ok_inv hok
  rw [ChanUpgradeInit_ok hch hopen hauth hne hhop hconn hport hchan hord]
  refine ⟨fun p c => ?_, ⟨stored, hopen, hch, ?_⟩, fun p c hkey => ?_⟩
  · simp [GetChannel, SetUpgradeTimeout, SetUpgradeSequence, SetUpgradeRestoreChannel]
  · simpa [GetChannel, SetUpgradeTimeout, SetUpgradeSequence, SetUpgradeRestoreChannel]
      using hch
  · simp [GetUpgradeRestoreChannel, GetUpgradeSequence, GetUpgradeTimeout, SetUpgradeTimeout,
      SetUpgradeSequence, SetUpgradeRestoreChannel, setKey, hkey]

/-- Witness for C12: Init on `twoChannelCtx`, which holds an upgrade attempt of another
channel, ("portA", "chan-2"). -/
theorem chanUpgradeInit_only_stages_witness :
    (ChanUpgradeInit twoChannelCtx "portA" "chan-1" none orderedProposal ⟨0, 100⟩ 5000).2
        = .returns (1, "v1", none) ∧
      GetChannel (ChanUpgradeInit twoChannelCtx "portA" "chan-1" none orderedProposal
        ⟨0, 100⟩ 5000).1 "portA" "chan-1" = some openChannel ∧
      GetUpgradeSequence (ChanUpgradeInit twoChannelCtx "portA" "chan-1" none orderedProposal
        ⟨0, 100⟩ 5000).1 "portA" "chan-2" = some 9 ∧
      GetUpgradeTimeout (ChanUpgradeInit twoChannelCtx "portA" "chan-1" none orderedProposal
        ⟨0, 100⟩ 5000).1 "portA" "chan-2" = some ⟨⟨0, 7⟩, 70⟩ :=
  have hframe := chanUpgradeInit_only_stages twoChannelCtx "portA" "chan-1" none
    orderedProposal ⟨0, 100⟩ 5000 1 "v1" (by decide)
  ⟨by decide,
    (hframe.1 "portA" "chan-1").trans (by decide),
    ((hframe.2.2 "portA" "chan-2" (by decide)).2.1).trans (by decide),
    ((hframe.2.2 "portA" "chan-2" (by decide)).2.2).trans (by decide)⟩

/-- C13: after a successful `ChanUpgradeInit` with a proposal, followed by
`WriteUpgradeInitChannel` on the same (port, channel) with that proposal, the counterparty
(port id and channel id) of the channel stored at (port, channel) equals the counterparty
of the channel stored there before the Init call. -/
theorem init_then_write_keeps_counterparty (ctx : Ctx) (portID channelID : String)
    (chanCap : Capability) (proposedChannel : Channel) (timeoutHeight : Height)
    (timeoutTimestamp : Nat) (seq : Nat) (v : String) (upgradeSequence : Nat)
    (hok : (ChanUpgradeInit ctx portID channelID chanCap proposedChannel timeoutHeight
      timeoutTimestamp).2 = .returns (seq, v, none)) :
    ∃ before after, GetChannel ctx portID channelID = some before ∧
      GetChannel (WriteUpgradeInitChannel
        (ChanUpgradeInit ctx portID channelID chanCap proposedChannel timeoutHeight
          timeoutTimestamp).1 portID channelID upgradeSequence proposedChannel)
        portID channelID = some after ∧
      after.Counterparty.PortId = before.Counterparty.PortId ∧
      after.Counterparty.ChannelId = before.Counterparty.ChannelId ∧
      after.Counterparty = before.Counterparty := by
  obtain ⟨stored, hop, hch, hopen, hauth, hne, hhop, hconn, hport, hchan, hord⟩ :=
    ChanUpgradeInit_ok_inv hok
  refine ⟨stored, proposedChannel, hch, ?_, hport, hchan, ?_⟩
  · simp [GetChannel, WriteUpgradeInitChannel, emitChannelUpgradeInitEvent, SetChannel, setKey]
  · cases hcp : proposedChannel.Counterparty with
    | mk pp pc =>
      cases hcs : stored.Counterparty with
      | mk sp sc =>
        rw [hcp, hcs] at hport hchan
        simp only at hport hchan
        rw [hport, hchan]

/-- Witness for C13: Init and commit of `orderedProposal` on `baseCtx`. -/
theorem init_then_write_keeps_counterparty_witness :
    (ChanUpgradeInit baseCtx "portA" "chan-1" none orderedProposal ⟨0, 100⟩ 5000).2
        = .returns (1, "v1", none) ∧
      ∃ before after, GetChannel baseCtx "portA" "chan-1" = some before ∧
        GetChannel (WriteUpgradeInitChannel
          (ChanUpgradeInit baseCtx "portA" "chan-1" none orderedProposal ⟨0, 100⟩ 5000).1
          "portA" "chan-1" 1 orderedProposal) "portA" "chan-1" = some after ∧
        after.Counterparty.PortId = before.Counterparty.PortId ∧
        after.Counterparty.ChannelId = before.Counterparty.ChannelId ∧
        after.Counterparty = before.Counterparty :=
  ⟨by decide,
    init_then_write_keeps_counterparty baseCtx "portA" "chan-1" none orderedProposal ⟨0, 100⟩
      5000 1 "v1" 1 (by decide)⟩

/-- C16: `ChanUpgradeInit` at a proposal without connection hops, on a context where checks
1 to 4 pass: the call panics on `ConnectionHops[0]`, for the empty slice and for the nil
slice alike, and so returns neither ConnectionNotFound nor any other result. -/
theorem chanUpgradeInit_panics_without_hops :
    GetChannel baseCtx "portA" "chan-1" = some openChannel ∧ openChannel.State = .OPEN ∧
      baseCtx.AuthenticateCapability none (baseCtx.ChannelCapabilityPath "portA" "chan-1")
        = true ∧
      emptyHopsProposal ≠ { openChannel with State := .INITUPGRADE } ∧
      emptyHopsProposal.ConnectionHops.toList = [] ∧
      (ChanUpgradeInit baseCtx "portA" "chan-1" none emptyHopsProposal ⟨0, 100⟩ 5000).2
        = .panics ∧
      (ChanUpgradeInit baseCtx "portA" "chan-1" none nilHopsProposal ⟨0, 100⟩ 5000).2
        = .panics ∧
      (ChanUpgradeInit baseCtx "portA" "chan-1" none emptyHopsProposal ⟨0, 100⟩ 5000).2
        ≠ .returns (0, "", some .ErrConnectionNotFound) := by
  decide

/-- C17: `WriteUpgradeInitChannel` is one unconditional write: whatever the context, the
channel and the sequence passed, afterwards the Channel Record Store maps (port, channel)
to the channel passed and every other key to what it held, the restore channel, sequence
and timeout of the Upgrade Attempt Store are as before at every key, and two calls that
differ only in the sequence passed leave the same four stores. -/
theorem writeUpgradeInitChannel_single_write (ctx : Ctx) (portID channelID : String)
    (upgradeSequence : Nat) (channelUpgrade : Channel) :
    GetChannel (WriteUpgradeInitChannel ctx portID channelID upgradeSequence channelUpgrade)
        portID channelID = some channelUpgrade ∧
      (∀ p c : String,
        GetChannel (WriteUpgradeInitChannel ctx portID channelID upgradeSequence
          channelUpgrade) p c =
            if (p, c) = (portID, channelID) then some channelUpgrade
            else GetChannel ctx p c) ∧
      (∀ p c : String,
        GetUpgradeRestoreChannel (WriteUpgradeInitChannel ctx portID channelID
            upgradeSequence channelUpgrade) p c = GetUpgradeRestoreChannel ctx p c ∧
          GetUpgradeSequence (WriteUpgradeInitChannel ctx portID channelID upgradeSequence
            channelUpgrade) p c = GetUpgradeSequence ctx p c ∧
          GetUpgradeTimeout (WriteUpgradeInitChannel ctx portID channelID upgradeSequence
            channelUpgrade) p c = GetUpgradeTimeout ctx p c) ∧
      ∀ otherSequence : Nat,
        (WriteUpgradeInitChannel ctx portID channelID otherSequence channelUpgrade).channels
            = (WriteUpgradeInitChannel ctx portID channelID upgradeSequence
              channelUpgrade).channels ∧
          (WriteUpgradeInitChannel ctx portID channelID otherSequence
            channelUpgrade).upgradeRestoreChannels
              = (WriteUpgradeInitChannel ctx portID channelID upgradeSequence
                channelUpgrade).upgradeRestoreChannels ∧
          (WriteUpgradeInitChannel ctx portID channelID otherSequence
            channelUpgrade).upgradeSequences
              = (WriteUpgradeInitChannel ctx portID channelID upgradeSequence
                channelUpgrade).upgradeSequences ∧
          (WriteUpgradeInitChannel ctx portID channelID otherSequence
            channelUpgrade).upgradeTimeouts
              = (WriteUpgradeInitChannel ctx portID channelID upgradeSequence
                channelUpgrade).upgradeTimeouts := by
  refine ⟨?_, fun p c => ?_, fun p c => ⟨rfl, rfl, rfl⟩, fun _ => ⟨rfl, rfl, rfl, rfl⟩⟩
  · simp [GetChannel, WriteUpgradeInitChannel, emitChannelUpgradeInitEvent, SetChannel, setKey]
  · simp [GetChannel, WriteUpgradeInitChannel, emitChannelUpgradeInitEvent, SetChannel, setKey]

/-- C18: two `ChanUpgradeInit` calls that differ only in the timeout height and timeout
timestamp end the same way (same error, or same sequence and previous version), and the
contexts they leave read the same in the Channel Record Store and in the restore channel
and sequence maps at every key, and in the timeout map at every key other than
(port, channel). -/
theorem chanUpgradeInit_timeout_irrelevant (ctx : Ctx) (portID channelID : String)
    (chanCap : Capability) (proposedChannel : Channel) (height₁ height₂ : Height)
    (timestamp₁ timestamp₂ : Nat) :
    (ChanUpgradeInit ctx portID channelID chanCap proposedChannel height₁ timestamp₁).2
        = (ChanUpgradeInit ctx portID channelID chanCap proposedChannel height₂ timestamp₂).2 ∧
      ∀ p c : String,
        GetChannel (ChanUpgradeInit ctx portID channelID chanCap proposedChannel height₁
            timestamp₁).1 p c
          = GetChannel (ChanUpgradeInit ctx portID channelID chanCap proposedChannel height₂
            timestamp₂).1 p c ∧
        GetUpgradeRestoreChannel (ChanUpgradeInit ctx portID channelID chanCap proposedChannel
            height₁ timestamp₁).1 p c
          = GetUpgradeRestoreChannel (ChanUpgradeInit ctx portID channelID chanCap
            proposedChannel height₂ timestamp₂).1 p c ∧
        GetUpgradeSequence (ChanUpgradeInit ctx portID channelID chanCap proposedChannel
            height₁ timestamp₁).1 p c
          = GetUpgradeSequence (ChanUpgradeInit ctx portID channelID chanCap proposedChannel
            height₂ timestamp₂).1 p c ∧
        ((p, c) = (portID, channelID) ∨
          GetUpgradeTimeout (ChanUpgradeInit ctx portID channelID chanCap proposedChannel
              height₁ timestamp₁).1 p c
            = GetUpgradeTimeout (ChanUpgradeInit ctx portID channelID chanCap proposedChannel
              height₂ timestamp₂).1 p c) := by
  have hsame : ∀ ctx₁ ctx₂ : Ctx, ctx₁ = ctx → ctx₂ = ctx → ∀ p c : String,
      GetChannel ctx₁ p c = GetChannel ctx₂ p c ∧
      GetUpgradeRestoreChannel ctx₁ p c = GetUpgradeRestoreChannel ctx₂ p c ∧
      GetUpgradeSequence ctx₁ p c = GetUpgradeSequence ctx₂ p c ∧
      ((p, c) = (portID, channelID) ∨ GetUpgradeTimeout ctx₁ p c = GetUpgradeTimeout ctx₂ p c) := by
    intro ctx₁ ctx₂ h₁ h₂ p c
    subst h₁
    subst h₂
    exact ⟨rfl, rfl, rfl, Or.inr rfl⟩
  cases hch : GetChannel ctx portID channelID with
  | none =>
    exact ⟨by simp [ChanUpgradeInit, hch],
      hsame _ _ (by simp [ChanUpgradeInit, hch]) (by simp [ChanUpgradeInit, hch])⟩
  | some stored =>
    by_cases hopen : stored.State = .OPEN
    · by_cases hauth : ctx.AuthenticateCapability chanCap
          (ctx.ChannelCapabilityPath portID channelID) = true
      · by_cases hne : { stored with State := .INITUPGRADE } = proposedChannel
        · exact ⟨by simp [ChanUpgradeInit, hch, hopen, hauth, hne],
            hsame _ _ (by simp [ChanUpgradeInit, hch, hopen, hauth, hne])
              (by simp [ChanUpgradeInit, hch, hopen, hauth, hne])⟩
        · cases hhop : proposedChannel.ConnectionHops.index 0 with
          | none =>
            exact ⟨by simp [ChanUpgradeInit, hch, hopen, hauth, hne, hhop],
              hsame _ _ (by simp [ChanUpgradeInit, hch, hopen, hauth, hne, hhop])
                (by simp [ChanUpgradeInit, hch, hopen, hauth, hne, hhop])⟩
          | some hop =>
            by_cases hconn : ctx.HasConnection hop = true
            · by_cases hport : proposedChannel.Counterparty.PortId = stored.Counterparty.PortId
              · by_cases hchan :
                    proposedChannel.Counterparty.ChannelId = stored.Counterparty.ChannelId
                · by_cases hord : stored.Ordering.SubsetOf proposedChannel.Ordering = true
                  · rw [ChanUpgradeInit_ok hch hopen hauth hne hhop hconn hport hchan hord,
                      ChanUpgradeInit_ok hch hopen hauth hne hhop hconn hport hchan hord]
                    refine ⟨rfl, fun p c => ⟨rfl, rfl, rfl, ?_⟩⟩
                    by_cases hkey : (p, c) = (portID, channelID)
                    · exact Or.inl hkey
                    · right
                      simp [GetUpgradeTimeout, SetUpgradeTimeout, setKey, hkey]
                  · exact ⟨by simp [ChanUpgradeInit, hch, hopen, hauth, hne, hhop, hconn, hport,
                        hchan, hord],
                      hsame _ _
                        (by simp [ChanUpgradeInit, hch, hopen, hauth, hne, hhop, hconn, hport,
                          hchan, hord])
                        (by simp [ChanUpgradeInit, hch, hopen, hauth, hne, hhop, hconn, hport,
                          hchan, hord])⟩
                · exact ⟨by simp [ChanUpgradeInit, hch, hopen, hauth, hne, hhop, hconn, hport,
                      hchan],
                    hsame _ _
                      (by simp [ChanUpgradeInit, hch, hopen, hauth, hne, hhop, hconn, hport,
                        hchan])
                      (by simp [ChanUpgradeInit, hch, hopen, hauth, hne, hhop, hconn, hport,
                        hchan])⟩
              · exact ⟨by simp [ChanUpgradeInit, hch, hopen, hauth, hne, hhop, hconn, hport],
                  hsame _ _ (by simp [ChanUpgradeInit, hch, hopen, hauth, hne, hhop, hconn, hport])
                    (by simp [ChanUpgradeInit, hch, hopen, hauth, hne, hhop, hconn, hport])⟩
            · exact ⟨by simp [ChanUpgradeInit, hch, hopen, hauth, hne, hhop, hconn],
                hsame _ _ (by simp [ChanUpgradeInit, hch, hopen, hauth, hne, hhop, hconn])
                  (by simp [ChanUpgradeInit, hch, hopen, hauth, hne, hhop, hconn])⟩
      · exact ⟨by simp [ChanUpgradeInit, hch, hopen, hauth],
          hsame _ _ (by simp [ChanUpgradeInit, hch, hopen, hauth])
            (by simp [ChanUpgradeInit, hch, hopen, hauth])⟩
    · exact ⟨by simp [ChanUpgradeInit, hch, hopen],
        hsame _ _ (by simp [ChanUpgradeInit, hch, hopen]) (by simp [ChanUpgradeInit, hch, hopen])⟩

/-! ## Consensus State Store -/

/-- Appending one write to the history applies it last. -/
theorem applyWrites_append_one (store : ClientStore) (writes : List ClientWrite)
    (w : ClientWrite) :
    applyWrites store (writes ++ [w]) = applyWrite (applyWrites store writes) w := by
  simp [applyWrites, List.foldl_append]

/-- A processed time read from a store built by writes was written at that height. -/
theorem processedTime_was_written (writes : List ClientWrite) (height : Height) (time : Nat) :
    (applyWrites emptyClientStore writes).processedTimes height = some time →
      ClientWrite.processedTime height time ∈ writes := by
  induction writes using List.reverseRecOn generalizing time with
  | nil => intro hread; simp [applyWrites, emptyClientStore] at hread
  | append_singleton ws w ih =>
    intro hread
    rw [applyWrites_append_one] at hread
    cases w with
    | consensus h p =>
      exact List.mem_append_left _ (ih time (by simpa [applyWrite] using hread))
    | processedHeight h ph =>
      exact List.mem_append_left _ (ih time (by simpa [applyWrite] using hread))
    | processedTime h t =>
      by_cases hh : height = h
      · subst hh
        simp [applyWrite, setAt] at hread
        subst hread
        simp
      · simp [applyWrite, setAt, hh] at hread
        exact List.mem_append_left _ (ih time hread)

/-- A height at which a processed time was written reads as found. -/
theorem processedTime_found (writes : List ClientWrite) (height : Height) (time : Nat) :
    ClientWrite.processedTime height time ∈ writes →
      ∃ read, (applyWrites emptyClientStore writes).processedTimes height = some read := by
  induction writes using List.reverseRecOn generalizing time with
  | nil => intro hmem; simp at hmem
  | append_singleton ws w ih =>
    intro hmem
    rw [applyWrites_append_one]
    by_cases hlast : w = ClientWrite.processedTime height time
    · subst hlast
      exact ⟨time, by simp [applyWrite, setAt]⟩
    · have hin : ClientWrite.processedTime height time ∈ ws := by
        rcases List.mem_append.mp hmem with hws | hw
        · exact hws
        · exact absurd (List.mem_singleton.mp hw).symm hlast
      obtain ⟨read, hread⟩ := ih time hin
      cases w with
      | consensus h p => exact ⟨read, by simpa [applyWrite] using hread⟩
      | processedHeight h ph => exact ⟨read, by simpa [applyWrite] using hread⟩
      | processedTime h t =>
        by_cases hh : height = h
        · exact ⟨t, by simp [applyWrite, setAt, hh]⟩
        · exact ⟨read, by simpa [applyWrite, setAt, hh] using hread⟩

/-- A processed height read from a store built by writes was written at that height. -/
theorem processedHeight_was_written (writes : List ClientWrite) (height processed : Height) :
    (applyWrites emptyClientStore writes).processedHeights height = some processed →
      ClientWrite.processedHeight height processed ∈ writes := by
  induction writes using List.reverseRecOn generalizing processed with
  | nil => intro hread; simp [applyWrites, emptyClientStore] at hread
  | append_singleton ws w ih =>
    intro hread
    rw [applyWrites_append_one] at hread
    cases w with
    | consensus h p =>
      exact List.mem_append_left _ (ih processed (by simpa [applyWrite] using hread))
    | processedTime h t =>
      exact List.mem_append_left _ (ih processed (by simpa [applyWrite] using hread))
    | processedHeight h ph =>
      by_cases hh : height = h
      · subst hh
        simp [applyWrite, setAt] at hread
        subst hread
        simp
      · simp [applyWrite, setAt, hh] at hread
        exact List.mem_append_left _ (ih processed hread)

/-- A height at which a processed height was written reads as found. -/
theorem processedHeight_found (writes : List ClientWrite) (height processed : Height) :
    ClientWrite.processedHeight height processed ∈ writes →
      ∃ read, (applyWrites emptyClientStore writes).processedHeights height = some read := by
  induction writes using List.reverseRecOn generalizing processed with
  | nil => intro hmem; simp at hmem
  | append_singleton ws w ih =>
    intro hmem
    rw [applyWrites_append_one]
    by_cases hlast : w = ClientWrite.processedHeight height processed
    · subst hlast
      exact ⟨processed, by simp [applyWrite, setAt]⟩
    · have hin : ClientWrite.processedHeight height processed ∈ ws := by
        rcases List.mem_append.mp hmem with hws | hw
        · exact hws
        · exact absurd (List.mem_singleton.mp hw).symm hlast
      obtain ⟨read, hread⟩ := ih processed hin
      cases w with
      | consensus h p => exact ⟨read, by simpa [applyWrite] using hread⟩
      | processedTime h t => exact ⟨read, by simpa [applyWrite] using hread⟩
      | processedHeight h ph =>
        by_cases hh : height = h
        · exact ⟨ph, by simp [applyWrite, setAt, hh]⟩
        · exact ⟨read, by simpa [applyWrite, setAt, hh] using hread⟩

/-- C14: on the client store reached by any sequence of writes and at any height,
`GetProcessedTime` and `GetProcessedHeight` return found = false when no processed time,
respectively no processed height, was ever written for that height, and return
found = true together with exactly the written scalar when one was written (the one value
written for that height, the metadata being written once per height). -/
theorem processed_metadata_lookup (writes : List ClientWrite) (height : Height) :
    ((∀ time, ClientWrite.processedTime height time ∉ writes) →
        (GetProcessedTime (applyWrites emptyClientStore writes) height).2 = false) ∧
      ((∀ processed, ClientWrite.processedHeight height processed ∉ writes) →
        (GetProcessedHeight (applyWrites emptyClientStore writes) height).2 = false) ∧
      (∀ time, ClientWrite.processedTime height time ∈ writes →
        (∀ other, ClientWrite.processedTime height other ∈ writes → other = time) →
        GetProcessedTime (applyWrites emptyClientStore writes) height = (time, true)) ∧
      (∀ processed, ClientWrite.processedHeight height processed ∈ writes →
        (∀ other, ClientWrite.processedHeight height other ∈ writes → other = processed) →
        GetProcessedHeight (applyWrites emptyClientStore writes) height
          = (some processed, true)) := by
  refine ⟨fun hnever => ?_, fun hnever => ?_, fun time hmem honce => ?_,
    fun processed hmem honce => ?_⟩
  · cases hread : (applyWrites emptyClientStore writes).processedTimes height with
    | none => simp [GetProcessedTime, hread]
    | some t => exact absurd (processedTime_was_written writes height t hread) (hnever t)
  · cases hread : (applyWrites emptyClientStore writes).processedHeights height with
    | none => simp [GetProcessedHeight, hread]
    | some ph => exact absurd (processedHeight_was_written writes height ph hread) (hnever ph)
  · obtain ⟨read, hread⟩ := processedTime_found writes height time hmem
    have hval := honce read (processedTime_was_written writes height read hread)
    simp [GetProcessedTime, hread, hval]
  · obtain ⟨read, hread⟩ := processedHeight_found writes height processed hmem
    have hval := honce read (processedHeight_was_written writes height read hread)
    simp [GetProcessedHeight, hread, hval]

/-- Witness for C14: `sampleWrites` read at the written height (0, 8) and at the height
(1, 1), which was never written. -/
theorem processed_metadata_lookup_witness :
    (GetProcessedTime (applyWrites emptyClientStore sampleWrites) ⟨1, 1⟩).2 = false ∧
      (GetProcessedHeight (applyWrites emptyClientStore sampleWrites) ⟨1, 1⟩).2 = false ∧
      GetProcessedTime (applyWrites emptyClientStore sampleWrites) ⟨0, 8⟩
        = (1000000010, true) ∧
      GetProcessedHeight (applyWrites emptyClientStore sampleWrites) ⟨0, 8⟩
        = (some ⟨0, 12⟩, true) :=
  ⟨(processed_metadata_lookup sampleWrites ⟨1, 1⟩).1
      (by intro time hmem; simp [sampleWrites] at hmem),
    (processed_metadata_lookup sampleWrites ⟨1, 1⟩).2.1
      (by intro processed hmem; simp [sampleWrites] at hmem),
    (processed_metadata_lookup sampleWrites ⟨0, 8⟩).2.2.1 1000000010 (by decide)
      (by intro other hmem; simpa [sampleWrites] using hmem),
    (processed_metadata_lookup sampleWrites ⟨0, 8⟩).2.2.2 ⟨0, 12⟩ (by decide)
      (by intro other hmem; simpa [sampleWrites] using hmem)⟩

/-- C15: `GetConsensusState` on a client store and a height returns the stored consensus
state and a nil error when a tendermint consensus state is stored there, a nil consensus
state and NotFound when nothing is stored there, and a nil consensus state and
InvalidConsensusState, an error other than NotFound, when the payload stored there is a
solomachine consensus state or a client state. -/
theorem getConsensusState_by_payload (store : ClientStore) (height : Height) :
    (∀ consensusState,
        store.consensusStates height = some (.tendermintConsensusState consensusState) →
        GetConsensusState store height = (some consensusState, none)) ∧
      (store.consensusStates height = none →
        GetConsensusState store height = (none, some .NotFound)) ∧
      (∀ bz, store.consensusStates height = some (.solomachineConsensusState bz) →
        GetConsensusState store height = (none, some .InvalidConsensusState)) ∧
      (∀ bz, store.consensusStates height = some (.clientState bz) →
        GetConsensusState store height = (none, some .InvalidConsensusState)) ∧
      ConsensusError.InvalidConsensusState ≠ ConsensusError.NotFound := by
  refine ⟨fun cs hs => ?_, fun hs => ?_, fun bz hs => ?_, fun bz hs => ?_, by decide⟩ <;>
    simp [GetConsensusState, hs]

/-- Witness for C15: the four cases of the test, on `sampleClientStore` (stored, and
nothing stored at the next height) and on `malleatedClientStore` (solomachine consensus
state, client state). -/
theorem getConsensusState_by_payload_witness :
    GetConsensusState sampleClientStore ⟨0, 8⟩ = (some ⟨[4, 5, 6]⟩, none) ∧
      GetConsensusState sampleClientStore ⟨0, 9⟩ = (none, some .NotFound) ∧
      GetConsensusState malleatedClientStore ⟨0, 8⟩ = (none, some .InvalidConsensusState) ∧
      GetConsensusState malleatedClientStore ⟨0, 5⟩ = (none, some .InvalidConsensusState) :=
  ⟨(getConsensusState_by_payload sampleClientStore ⟨0, 8⟩).1 ⟨[4, 5, 6]⟩ (by decide),
    (getConsensusState_by_payload sampleClientStore ⟨0, 9⟩).2.1 (by decide),
    (getConsensusState_by_payload malleatedClientStore ⟨0, 8⟩).2.2.1 [] (by decide),
    (getConsensusState_by_payload malleatedClientStore ⟨0, 5⟩).2.2.2.1 [] (by decide)⟩

end IbcGo
